import Mathlib

/-!
# RAIntegration: game identification and activation, and the property registry

A shallow embedding of `src/services/GameIdentifier.cpp`, followed by one of
`src/data/ModelProperty.cpp` (introduced where its definitions start).  The three member
variables of `GameIdentifier` and the state of the services it reaches through
the `ServiceLocator` are fields of one `World` record; every call the source
makes on a service is appended to `World.trace` in source order.  Answers that
come from outside the process (the server, the user in front of a dialog, the
hashing library) are fields of `Env`.

Conventions: `unsigned int` game and console identifiers are `Nat` (the code only
compares them); narrow and wide strings are both `String` and `ra::Widen` is the
identity; `ra::StringPrintf(L"Error from %s", host)` is `"Error from " ++ host`;
logging (`RA_LOG_INFO`) and pure getters leave no event in the trace; seeding the
unknown-game view model is part of the `UnknownGameShowModal` event, whose arguments
are the seeded values.
-/

namespace ra

/-- The two values of `ra::data::context::GameContext::Mode` the source uses. -/
inductive Mode where
  | Normal
  | CompatibilityTest
  deriving DecidableEq, Repr

/-- Modelled from the spec: the enum `ra::ui::DialogResult` is declared outside the
sources at hand; the source compares against `OK` and `Yes`, the spec names the
cancelled and declined outcomes. -/
inductive DialogResult where
  | OK
  | Cancel
  | Yes
  | No
  deriving DecidableEq, Repr

/-- The fields of `ra::api::ResolveHash::Response` read by the source. -/
structure Response where
  Succeeded : Bool
  GameId : Nat
  ErrorMessage : String
  deriving DecidableEq, Repr

/-- What `UnknownGameViewModel` holds once `ShowModal` has returned. -/
structure UnknownGameOutcome where
  result : DialogResult
  SelectedGameId : Nat
  TestMode : Bool
  deriving DecidableEq, Repr

/-- One call made by the source on a service, with its arguments. -/
inductive Event where
  | ShowErrorMessage (sMessage : String)
  | ShowErrorMessage2 (sHeader sMessage : String)
  | ResolveHash (sHash : String)
  | UnknownGameShowModal (sSystemName sChecksum sEstimatedGameName sNewGameName : String)
  | ClearPopups
  | LoadGame (nGameId : Nat) (nMode : Mode)
  | SetGameHash (sHash : String)
  | SetMode (nMode : Mode)
  | SetGameTitle (sTitle : String)
  | BeginSession (nGameId : Nat)
  | EndSession
  | WarningShowModal (sHeader sMessage : String)
  | EnableHardcoreMode (bShowWarning : Bool)
  | PlayAudioFile (sPath : String)
  | QueueMessage (sTitle sDetail : String)
  | ResetMemoryModified
  deriving DecidableEq, Repr

/-- Modelled from the spec: the Game State Holder (`GameContext`, declared outside the
sources at hand) holds the currently active game identifier, hash, title and mode. -/
structure GameContext where
  m_nGameId : Nat
  m_sGameHash : String
  m_nMode : Mode
  m_sGameTitle : String
  deriving DecidableEq, Repr

/-- The feature flags and host name read from `IConfiguration`. -/
structure Configuration where
  Hardcore : Bool
  NonHardcoreWarning : Bool
  Leaderboards : Bool
  HostName : String
  deriving DecidableEq, Repr

/-- The member variables of `GameIdentifier` together with the services behind the
`ServiceLocator`. -/
structure World where
  /-- staging field `m_sPendingMD5` -/
  m_sPendingMD5 : String
  /-- staging field `m_nPendingGameId` -/
  m_nPendingGameId : Nat
  /-- staging field `m_nPendingMode` -/
  m_nPendingMode : Mode
  /-- `ConsoleContext::Id()` -/
  consoleId : Nat
  /-- `ConsoleContext::Name()` -/
  consoleName : String
  /-- `UserContext::IsLoggedIn()` -/
  loggedIn : Bool
  /-- the Game State Holder -/
  game : GameContext
  /-- the game the `SessionTracker` has a session for, if any -/
  session : Option Nat
  /-- `EmulatorContext::GetGameTitle()` -/
  emulatorGameTitle : String
  /-- the memory-modified flag of the `EmulatorContext` -/
  memoryModified : Bool
  /-- the configuration -/
  config : Configuration
  /-- transient popups held by the `OverlayManager` -/
  popups : List String
  /-- messages queued on the `OverlayManager` -/
  messages : List (String × String)
  /-- every service call made so far, oldest first -/
  trace : List Event
  deriving DecidableEq, Repr

/-- Answers that come from outside the process. -/
structure Env where
  /-- the buffer hashing routine of the hashing library: console, buffer, size -/
  rc_hash_generate_from_buffer : Nat → List Nat → Nat → String
  /-- answer of the resolution service for a hash -/
  ResolveHash : String → Response
  /-- what the user does with the unknown-game dialog seeded with system name,
  checksum, estimated name and new name -/
  UnknownGame : String → String → String → String → UnknownGameOutcome
  /-- what the user answers to the hardcore confirmation for a game -/
  HardcoreWarning : Nat → DialogResult
  /-- whether the assets loaded for a game contain core achievements -/
  HasCoreAssets : Nat → Bool

namespace World

/-- `MessageBoxViewModel::ShowErrorMessage(sMessage)`. -/
def ShowErrorMessage (w : World) (sMessage : String) : World :=
  { w with trace := w.trace ++ [Event.ShowErrorMessage sMessage] }

/-- `MessageBoxViewModel::ShowErrorMessage(sHeader, sMessage)`. -/
def ShowErrorMessage2 (w : World) (sHeader sMessage : String) : World :=
  { w with trace := w.trace ++ [Event.ShowErrorMessage2 sHeader sMessage] }

/-- `request.Call()` on a `ResolveHash::Request`. -/
def ResolveHashCall (env : Env) (w : World) (sHash : String) : Response × World :=
  (env.ResolveHash sHash, { w with trace := w.trace ++ [Event.ResolveHash sHash] })

/-- `vmUnknownGame.ShowModal()` after the view model has been seeded. -/
def UnknownGameShowModal (env : Env) (w : World)
    (sSystemName sChecksum sEstimatedGameName sNewGameName : String) :
    UnknownGameOutcome × World :=
  (env.UnknownGame sSystemName sChecksum sEstimatedGameName sNewGameName,
   { w with trace := w.trace ++
      [Event.UnknownGameShowModal sSystemName sChecksum sEstimatedGameName sNewGameName] })

/-- Modelled from the spec: `GameContext::SetGameHash` (declared outside the sources at
hand) stores the hash in the Game State Holder. -/
def SetGameHash (w : World) (sHash : String) : World :=
  { w with game := { w.game with m_sGameHash := sHash },
           trace := w.trace ++ [Event.SetGameHash sHash] }

/-- Modelled from the spec: `GameContext::SetMode` (declared outside the sources at
hand) stores the mode in the Game State Holder. -/
def SetMode (w : World) (nMode : Mode) : World :=
  { w with game := { w.game with m_nMode := nMode },
           trace := w.trace ++ [Event.SetMode nMode] }

/-- Modelled from the spec: `GameContext::SetGameTitle` (declared outside the sources at
hand) stores the title in the Game State Holder. -/
def SetGameTitle (w : World) (sTitle : String) : World :=
  { w with game := { w.game with m_sGameTitle := sTitle },
           trace := w.trace ++ [Event.SetGameTitle sTitle] }

/-- Modelled from the spec: `GameContext::LoadGame` (declared outside the sources at
hand) makes the given identifier the active one, with the given mode. -/
def LoadGame (w : World) (nGameId : Nat) (nMode : Mode) : World :=
  { w with game := { w.game with m_nGameId := nGameId, m_nMode := nMode },
           trace := w.trace ++ [Event.LoadGame nGameId nMode] }

/-- Modelled from the spec: `SessionTracker::BeginSession` (declared outside the sources
at hand) begins a play session for a game identifier. -/
def BeginSession (w : World) (nGameId : Nat) : World :=
  { w with session := some nGameId, trace := w.trace ++ [Event.BeginSession nGameId] }

/-- Modelled from the spec: `SessionTracker::EndSession` (declared outside the sources at
hand) ends the current play session. -/
def EndSession (w : World) : World :=
  { w with session := none, trace := w.trace ++ [Event.EndSession] }

/-- Modelled from the spec: `OverlayManager::ClearPopups` (declared outside the sources at
hand) clears the transient overlay popups. -/
def ClearPopups (w : World) : World :=
  { w with popups := [], trace := w.trace ++ [Event.ClearPopups] }

/-- Modelled from the spec: `OverlayManager::QueueMessage` (declared outside the sources
at hand) queues an overlay message with a title and a detail text. -/
def QueueMessage (w : World) (sTitle sDetail : String) : World :=
  { w with messages := w.messages ++ [(sTitle, sDetail)],
           trace := w.trace ++ [Event.QueueMessage sTitle sDetail] }

/-- `IAudioSystem::PlayAudioFile`. -/
def PlayAudioFile (w : World) (sPath : String) : World :=
  { w with trace := w.trace ++ [Event.PlayAudioFile sPath] }

/-- `vmWarning.ShowModal()` on the hardcore confirmation. -/
def WarningShowModal (env : Env) (w : World) (sHeader sMessage : String) :
    DialogResult × World :=
  (env.HardcoreWarning w.game.m_nGameId,
   { w with trace := w.trace ++ [Event.WarningShowModal sHeader sMessage] })

/-- Modelled from the spec: `EmulatorContext::EnableHardcoreMode` (declared outside the
sources at hand) enables hardcore mode. -/
def EnableHardcoreMode (w : World) (bShowWarning : Bool) : World :=
  { w with config := { w.config with Hardcore := true },
           trace := w.trace ++ [Event.EnableHardcoreMode bShowWarning] }

/-- Modelled from the spec: `EmulatorContext::ResetMemoryModified` (declared outside the
sources at hand) resets the memory-modified flag. -/
def ResetMemoryModified (w : World) : World :=
  { w with memoryModified := false, trace := w.trace ++ [Event.ResetMemoryModified] }

end World

/-- Whether an event is one of the two `ShowErrorMessage` overloads. -/
def Event.isError : Event → Bool
  | Event.ShowErrorMessage _ => true
  | Event.ShowErrorMessage2 _ _ => true
  | _ => false

/-- Number of error messages shown in a trace. -/
def errorCount (t : List Event) : Nat :=
  (t.filter Event.isError).length

/-- Whether an event is a call of the resolution service. -/
def Event.isResolve : Event → Bool
  | Event.ResolveHash _ => true
  | _ => false

/-- Whether an event is the unknown-game dialog being shown. -/
def Event.isUnknownGameDialog : Event → Bool
  | Event.UnknownGameShowModal _ _ _ _ => true
  | _ => false

/-- Whether an event is a call that writes to the Game State Holder. -/
def Event.isHolderWrite : Event → Bool
  | Event.LoadGame _ _ => true
  | Event.SetGameHash _ => true
  | Event.SetMode _ => true
  | Event.SetGameTitle _ => true
  | _ => false

/-- Whether an event is the hardcore confirmation dialog being shown. -/
def Event.isWarningDialog : Event → Bool
  | Event.WarningShowModal _ _ => true
  | _ => false

/-- Whether an event is an audio file being played. -/
def Event.isAudioCue : Event → Bool
  | Event.PlayAudioFile _ => true
  | _ => false

/-- Whether an event is an overlay message being queued. -/
def Event.isOverlayMessage : Event → Bool
  | Event.QueueMessage _ _ => true
  | _ => false

/-- Whether an event is hardcore mode being enabled. -/
def Event.isEnableHardcore : Event → Bool
  | Event.EnableHardcoreMode _ => true
  | _ => false

/-- Whether an event is the title of the Game State Holder being set. -/
def Event.isTitleWrite : Event → Bool
  | Event.SetGameTitle _ => true
  | _ => false

/-- Number of events of a kind in a trace. -/
def eventCount (p : Event → Bool) (t : List Event) : Nat :=
  (t.filter p).length

/-- The calls made between an earlier state and a later one. -/
def World.callsSince (after before : World) : List Event :=
  after.trace.drop before.trace.length

/-- Whether, among the calls `t`, the unknown-game dialog was shown and the user confirmed
it with test mode flagged. -/
def dialogConfirmedWithTestMode (env : Env) (t : List Event) : Bool :=
  t.any fun e =>
    match e with
    | Event.UnknownGameShowModal a b c d =>
      decide ((env.UnknownGame a b c d).result = DialogResult.OK) &&
        (env.UnknownGame a b c d).TestMode
    | _ => false

namespace GameIdentifier

/-- `GameIdentifier::IdentifyHash` (GameIdentifier.cpp, lines 53-124). -/
def IdentifyHash (env : Env) (w : World) (sMD5 : String) : Nat × World :=
  if !w.loggedIn then
    (0, w.ShowErrorMessage2 "Cannot load achievements"
      "You must be logged in to load achievements. Please reload the game after logging in.")
  else
    let w1 : World := { w with m_nPendingMode := Mode.Normal }
    let call := w1.ResolveHashCall env sMD5
    let response := call.1
    let w2 := call.2
    let resolved : Nat × World :=
      if response.Succeeded then
        if response.GameId = 0 then
          let sEstimatedGameTitle := w2.emulatorGameTitle
          let dlg := w2.UnknownGameShowModal env w2.consoleName sMD5
            sEstimatedGameTitle sEstimatedGameTitle
          if dlg.1.result = DialogResult.OK then
            if dlg.1.TestMode then
              (dlg.1.SelectedGameId, { dlg.2 with m_nPendingMode := Mode.CompatibilityTest })
            else
              (dlg.1.SelectedGameId, dlg.2)
          else
            (response.GameId, dlg.2)
        else
          (response.GameId, w2)
      else
        let sErrorMessage :=
          if response.ErrorMessage.isEmpty then "Error from " ++ w2.config.HostName
          else response.ErrorMessage
        (0, w2.ShowErrorMessage2 "Could not identify game." sErrorMessage)
    let nGameId := resolved.1
    let w3 : World := { resolved.2 with m_sPendingMD5 := sMD5, m_nPendingGameId := nGameId }
    if nGameId ≠ 0 ∧ nGameId = w3.game.m_nGameId then
      (nGameId, (w3.SetGameHash sMD5).SetMode w3.m_nPendingMode)
    else
      (nGameId, w3)

/-- `GameIdentifier::IdentifyGame` (GameIdentifier.cpp, lines 29-51); a null `pROM` is
`none`. -/
def IdentifyGame (env : Env) (w : World) (pROM : Option (List Nat)) (nROMSize : Nat) :
    Nat × World :=
  let w1 : World := { w with m_nPendingMode := Mode.Normal }
  let nConsoleId := w1.consoleId
  if nConsoleId = 0 then
    (0, w1.ShowErrorMessage "Cannot identify game for unknown console.")
  else
    match pROM with
    | none => (0, { w1 with m_sPendingMD5 := "", m_nPendingGameId := 0 })
    | some rom =>
      if nROMSize = 0 then
        (0, { w1 with m_sPendingMD5 := "", m_nPendingGameId := 0 })
      else
        IdentifyHash env w1 (env.rc_hash_generate_from_buffer nConsoleId rom nROMSize)

/-- `GameIdentifier::ActivateGame` (GameIdentifier.cpp, lines 126-189). -/
def ActivateGame (env : Env) (w : World) (nGameId : Nat) : World :=
  if nGameId ≠ 0 then
    if !w.loggedIn then
      w.ShowErrorMessage2 "Cannot load achievements"
        "You must be logged in to load achievements. Please reload the game after logging in."
    else
      let w1 := w.ClearPopups
      let w2 := w1.LoadGame nGameId w1.m_nPendingMode
      let w3 := w2.SetGameHash (if nGameId = w2.m_nPendingGameId then w2.m_sPendingMD5 else "")
      let w4 := w3.BeginSession nGameId
      let w5 : World :=
        if !w4.config.Hardcore then
          let bShowHardcorePrompt :=
            if w4.config.NonHardcoreWarning then env.HasCoreAssets w4.game.m_nGameId else false
          if bShowHardcorePrompt then
            let dlg := w4.WarningShowModal env "Enable Hardcore mode?"
              "You are loading a game with achievements and do not currently have hardcore mode enabled."
            if dlg.1 = DialogResult.Yes then dlg.2.EnableHardcoreMode false else dlg.2
          else
            let bLeaderboardsEnabled := w4.config.Leaderboards
            (w4.PlayAudioFile "Overlay\\info.wav").QueueMessage "Playing in Softcore Mode"
              (if bLeaderboardsEnabled then "Leaderboard entries will not be submitted." else "")
        else w4
      w5.ResetMemoryModified
  else
    let w1 := w.EndSession
    let w2 := w1.LoadGame 0 w1.m_nPendingMode
    let w3 := w2.SetGameHash (if w2.m_nPendingGameId = 0 then w2.m_sPendingMD5 else "")
    w3.ResetMemoryModified

/-- `GameIdentifier::IdentifyAndActivateGame` (GameIdentifier.cpp, lines 191-206). -/
def IdentifyAndActivateGame (env : Env) (w : World) (pROM : Option (List Nat))
    (nROMSize : Nat) : World :=
  let r := IdentifyGame env w pROM nROMSize
  let nGameId := r.1
  let w1 := ActivateGame env r.2 nGameId
  if nGameId = 0 ∧ pROM.isSome ∧ nROMSize ≠ 0 then
    let sEstimatedGameTitle :=
      if w1.emulatorGameTitle.isEmpty then "Unknown" else w1.emulatorGameTitle
    w1.SetGameTitle sEstimatedGameTitle
  else
    w1

end GameIdentifier

/-! ## Sample inputs -/

/-- A server that knows every hash as game 42, a user who cancels the unknown-game
dialog and declines the hardcore confirmation. -/
def envKnown : Env where
  rc_hash_generate_from_buffer := fun _ _ _ => "5d41402abc4b2a76b9719d911017c592"
  ResolveHash := fun _ => ⟨true, 42, ""⟩
  UnknownGame := fun _ _ _ _ => ⟨DialogResult.Cancel, 0, false⟩
  HardcoreWarning := fun _ => DialogResult.No
  HasCoreAssets := fun _ => false

/-- A logged-in user on a known console (3) with game 7 active and an earlier
identification of game 7 staged in compatibility test mode. -/
def worldPlaying : World where
  m_sPendingMD5 := "aaaa"
  m_nPendingGameId := 7
  m_nPendingMode := Mode.CompatibilityTest
  consoleId := 3
  consoleName := "SNES"
  loggedIn := true
  game := ⟨7, "aaaa", Mode.CompatibilityTest, "Some Game"⟩
  session := some 7
  emulatorGameTitle := "Some Game"
  memoryModified := true
  config := ⟨false, false, true, "retroachievements.org"⟩
  popups := ["Achievement Unlocked"]
  messages := []
  trace := []

/-- A server that fails without a message. -/
def envFailing : Env := { envKnown with ResolveHash := fun _ => ⟨false, 0, ""⟩ }

/-- A server that does not know the hash, and a user who picks game 9 in the unknown-game
dialog and ticks test mode. -/
def envUnknownConfirmed : Env :=
  { envKnown with ResolveHash := fun _ => ⟨true, 0, ""⟩,
                  UnknownGame := fun _ _ _ _ => ⟨DialogResult.OK, 9, true⟩ }

/-- A server that does not know the hash, and a user who cancels the unknown-game dialog. -/
def envUnknownCancelled : Env := { envKnown with ResolveHash := fun _ => ⟨true, 0, ""⟩ }

/-- A server that resolves every hash to game 7. -/
def envSeven : Env := { envKnown with ResolveHash := fun _ => ⟨true, 7, ""⟩ }

/-- The same state as `worldPlaying` with no console selected. -/
def worldNoConsole : World := { worldPlaying with consoleId := 0 }

/-- The same state as `worldPlaying` with nobody logged in. -/
def worldLoggedOut : World := { worldPlaying with loggedIn := false }

/-- A user who answers `Yes` to the hardcore confirmation, for games that all have core
achievements. -/
def envHardcoreYes : Env :=
  { envKnown with HardcoreWarning := fun _ => DialogResult.Yes, HasCoreAssets := fun _ => true }

/-- The same state as `worldPlaying` with the non-hardcore warning feature enabled. -/
def worldWarning : World :=
  { worldPlaying with config := ⟨false, true, true, "retroachievements.org"⟩ }

/-- The same state as `worldPlaying` with hardcore mode enabled. -/
def worldHardcore : World :=
  { worldPlaying with config := ⟨true, true, true, "retroachievements.org"⟩ }

/-- A logged-in user on console 3 with no game active and nothing staged. -/
def worldIdle : World :=
  { worldPlaying with
      m_sPendingMD5 := "", m_nPendingGameId := 0, m_nPendingMode := Mode.Normal,
      game := ⟨0, "", Mode.Normal, ""⟩, session := none }

namespace data

/-- A `ModelPropertyBase` object: its address and its members. -/
structure ModelPropertyBase where
  /-- the address of the object, which is what `s_vProperties` stores -/
  addr : Nat
  /-- member `m_nKey` -/
  m_nKey : Int
  /-- member `m_sTypeName` -/
  m_sTypeName : String
  /-- member `m_sPropertyName` -/
  m_sPropertyName : String
  deriving DecidableEq, Repr

/-- The static members of `ModelPropertyBase`. -/
structure Registry where
  /-- static `s_nNextKey` -/
  s_nNextKey : Int
  /-- static `s_vProperties` -/
  s_vProperties : List ModelPropertyBase
  deriving DecidableEq, Repr

/-- The initial values of the static members (ModelProperty.cpp, lines 12-13). -/
def Registry.initial : Registry := ⟨1, []⟩

/-- The largest value of a 32-bit `int`. -/
def INT_MAX : Int := 2147483647

/-- The smallest value of a 32-bit `int`. -/
def INT_MIN : Int := -2147483648

/-- The 32-bit two's-complement value of an integer: what an `int` holds after an
arithmetic result is stored in it. -/
def wrapInt (x : Int) : Int :=
  (x + 2147483648) % 4294967296 - 2147483648

/-- `ModelPropertyBase::ModelPropertyBase(sTypeName, sPropertyName)` (ModelProperty.cpp,
lines 15-37) for the object at address `this`: the constructed object and the registry
after the call; `none` when `Expects` fails.  Line 24 increments the counter without any
check, so the increment wraps. -/
def construct (r : Registry) (this : Nat) (sTypeName sPropertyName : String) :
    Option (ModelPropertyBase × Registry) :=
  let m_nKey := r.s_nNextKey
  let s_nNextKey := wrapInt (r.s_nNextKey + 1)
  if r.s_vProperties.isEmpty ∧ m_nKey ≠ 1 then none
  else
    let obj : ModelPropertyBase := ⟨this, m_nKey, sTypeName, sPropertyName⟩
    some (obj, ⟨s_nNextKey, r.s_vProperties ++ [obj]⟩)

/-- `ModelPropertyBase::~ModelPropertyBase()` (ModelProperty.cpp, lines 39-44) for the
object at address `this`: `std::find` locates the first stored pointer equal to `this` and
`erase` removes it. -/
def destruct (r : Registry) (this : Nat) : Registry :=
  { r with s_vProperties := r.s_vProperties.eraseP (fun p => p.addr == this) }

/-- The comparison lambda of `GetPropertyForKey` (ModelProperty.cpp, lines 50-57); a null
pointer is `none`. -/
def GetPropertyForKey.comp (left right : Option ModelPropertyBase) : Bool :=
  match left with
  | none => right.isSome
  | some l =>
    match right with
    | none => false
    | some r => decide (l.m_nKey < r.m_nKey)

/-- The loop of `std::lower_bound` over `v[first, first + count)`: halve the range, going
right when `comp(*it, value)` holds.  `fuel` bounds the number of iterations. -/
def lower_bound.loop (v : List ModelPropertyBase) (value : Option ModelPropertyBase)
    (comp : Option ModelPropertyBase → Option ModelPropertyBase → Bool) :
    Nat → Nat → Nat → Nat
  | 0, first, _ => first
  | fuel + 1, first, count =>
    if 0 < count then
      let step := count / 2
      let it := first + step
      match v[it]? with
      | some p =>
        if comp (some p) value then
          lower_bound.loop v value comp fuel (it + 1) (count - (step + 1))
        else
          lower_bound.loop v value comp fuel first step
      | none => first
    else first

/-- `std::lower_bound(v.begin(), v.end(), value, comp)` as an index into `v`
(`v.length` is `v.end()`). -/
def lower_bound (v : List ModelPropertyBase) (value : Option ModelPropertyBase)
    (comp : Option ModelPropertyBase → Option ModelPropertyBase → Bool) : Nat :=
  lower_bound.loop v value comp v.length 0 v.length

/-- `ModelPropertyBase::GetPropertyForKey(nKey)` (ModelProperty.cpp, lines 46-60); `none`
is `nullptr`.  The local `search` object is built by the one-argument constructor, which
only stores the key; its address is that of no registered object, so its destructor finds
nothing to erase and the registry is unchanged. -/
def GetPropertyForKey (r : Registry) (nKey : Int) : Option ModelPropertyBase :=
  let search : ModelPropertyBase := ⟨0, nKey, "", ""⟩
  let iter := lower_bound r.s_vProperties (some search) GetPropertyForKey.comp
  if iter = r.s_vProperties.length then none else r.s_vProperties[iter]?

/-- A registration or a removal. -/
inductive Op where
  | construct (this : Nat) (sTypeName sPropertyName : String)
  | destruct (this : Nat)
  deriving DecidableEq, Repr

/-- Runs a sequence of registrations and removals; returns the registry reached and the
objects constructed, in order, or `none` if a constructor fails. -/
def run : Registry → List Op → Option (Registry × List ModelPropertyBase)
  | r, [] => some (r, [])
  | r, Op.construct this sTypeName sPropertyName :: ops =>
    match construct r this sTypeName sPropertyName with
    | none => none
    | some (obj, r1) =>
      match run r1 ops with
      | none => none
      | some (rf, objs) => some (rf, obj :: objs)
  | r, Op.destruct this :: ops => run (destruct r this) ops

/-- The number of registrations in a sequence of registrations and removals. -/
def registrations : List Op → Nat
  | [] => 0
  | Op.construct _ _ _ :: ops => registrations ops + 1
  | Op.destruct _ :: ops => registrations ops

/-- The keys of the registered properties, in registry order. -/
def Registry.keys (r : Registry) : List Int :=
  r.s_vProperties.map (fun p => p.m_nKey)

/-- Three registrations followed by the removal of the second object. -/
def opsRemoveMiddle : List Op :=
  [Op.construct 100 "ViewModel" "A", Op.construct 101 "ViewModel" "B",
   Op.construct 102 "ViewModel" "C", Op.destruct 101]

/-- The registry `opsRemoveMiddle` leads to: keys 1 and 3 registered, next key 4. -/
def registryGap : Registry :=
  ⟨4, [⟨100, 1, "ViewModel", "A"⟩, ⟨102, 3, "ViewModel", "C"⟩]⟩

/-- A run of `n` registrations, of objects at addresses 0, 1, 2, ... -/
def opsRegister (n : Nat) : List Op :=
  (List.range n).map (fun i => Op.construct i "ViewModel" "P")

/-- The objects `opsRegister n` constructs from the initial registry: the object at
address `i` receives the 32-bit value of `1 + i` as its key. -/
def registeredObjects (n : Nat) : List ModelPropertyBase :=
  (List.range n).map (fun i => ⟨i, wrapInt (1 + (i : Int)), "ViewModel", "P"⟩)

end data

end ra

namespace ra

open GameIdentifier

/-! ## Identification -/

/-- `IdentifyHash` when the user is logged in and the resolution service reports failure. -/
theorem IdentifyHash_failure (env : Env) (w : World) (sMD5 : String)
    (hUser : w.loggedIn = true) (hFail : (env.ResolveHash sMD5).Succeeded = false) :
    IdentifyHash env w sMD5 =
      (0, { w with
              m_sPendingMD5 := sMD5, m_nPendingGameId := 0, m_nPendingMode := Mode.Normal,
              trace := w.trace ++ [Event.ResolveHash sMD5,
                Event.ShowErrorMessage2 "Could not identify game."
                  (if (env.ResolveHash sMD5).ErrorMessage = "" then
                    "Error from " ++ w.config.HostName
                   else (env.ResolveHash sMD5).ErrorMessage)] }) := by
  simp [IdentifyHash, hUser, World.ResolveHashCall, hFail, World.ShowErrorMessage2,
    String.isEmpty_iff]

/-- `IdentifyHash` when the user is logged in and the resolution service knows the hash. -/
theorem IdentifyHash_known (env : Env) (w : World) (sMD5 : String)
    (hUser : w.loggedIn = true) (hOk : (env.ResolveHash sMD5).Succeeded = true)
    (hId : (env.ResolveHash sMD5).GameId ≠ 0) :
    IdentifyHash env w sMD5 =
      ((env.ResolveHash sMD5).GameId,
       if (env.ResolveHash sMD5).GameId = w.game.m_nGameId then
         { w with
              m_sPendingMD5 := sMD5, m_nPendingGameId := (env.ResolveHash sMD5).GameId,
              m_nPendingMode := Mode.Normal,
              game := { w.game with m_sGameHash := sMD5, m_nMode := Mode.Normal },
              trace := w.trace ++ [Event.ResolveHash sMD5, Event.SetGameHash sMD5,
                Event.SetMode Mode.Normal] }
       else
         { w with
              m_sPendingMD5 := sMD5, m_nPendingGameId := (env.ResolveHash sMD5).GameId,
              m_nPendingMode := Mode.Normal,
              trace := w.trace ++ [Event.ResolveHash sMD5] }) := by
  simp [IdentifyHash, hUser, World.ResolveHashCall, hOk, hId, World.SetGameHash, World.SetMode]
  split <;> simp_all


/-- `IdentifyHash` when the user is logged in and the resolution service succeeds with game
id 0, in terms of what the user did with the unknown-game dialog. -/
theorem IdentifyHash_unknown (env : Env) (w : World) (sMD5 : String)
    (hUser : w.loggedIn = true) (hOk : (env.ResolveHash sMD5).Succeeded = true)
    (hId : (env.ResolveHash sMD5).GameId = 0) (dlg : UnknownGameOutcome)
    (hDlg : env.UnknownGame w.consoleName sMD5 w.emulatorGameTitle w.emulatorGameTitle = dlg)
    (g : Nat) (hg : g = if dlg.result = DialogResult.OK then dlg.SelectedGameId else 0)
    (m : Mode) (hm : m = if dlg.result = DialogResult.OK ∧ dlg.TestMode = true
      then Mode.CompatibilityTest else Mode.Normal) :
    IdentifyHash env w sMD5 =
      (g,
       if g ≠ 0 ∧ g = w.game.m_nGameId then
         { w with
              m_sPendingMD5 := sMD5, m_nPendingGameId := g, m_nPendingMode := m,
              game := { w.game with m_sGameHash := sMD5, m_nMode := m },
              trace := w.trace ++ [Event.ResolveHash sMD5,
                Event.UnknownGameShowModal w.consoleName sMD5 w.emulatorGameTitle
                  w.emulatorGameTitle,
                Event.SetGameHash sMD5, Event.SetMode m] }
       else
         { w with
              m_sPendingMD5 := sMD5, m_nPendingGameId := g, m_nPendingMode := m,
              trace := w.trace ++ [Event.ResolveHash sMD5,
                Event.UnknownGameShowModal w.consoleName sMD5 w.emulatorGameTitle
                  w.emulatorGameTitle] }) := by
  subst hg hm
  rcases dlg with ⟨res, sel, tm⟩
  simp only [IdentifyHash, hUser, World.ResolveHashCall, hOk, hId, World.UnknownGameShowModal,
    hDlg]
  by_cases hres : res = DialogResult.OK
  · cases tm
    · simp [hres, World.SetGameHash, World.SetMode]
      split <;> simp_all
    · simp [hres, World.SetGameHash, World.SetMode]
      split <;> simp_all
  · simp [hres]

/-- C1 (as stated, refuted): with console identifier 0 the staging field
`m_nPendingMode` does not keep its value: it was `CompatibilityTest` before the call and is
`Normal` after it. -/
theorem C1_pendingMode_not_preserved :
    worldNoConsole.consoleId = 0 ∧
    ¬ ((IdentifyGame envKnown worldNoConsole none 0).1 = 0 ∧
       errorCount (IdentifyGame envKnown worldNoConsole none 0).2.trace
         = errorCount worldNoConsole.trace + 1 ∧
       (IdentifyGame envKnown worldNoConsole none 0).2.m_sPendingMD5
         = worldNoConsole.m_sPendingMD5 ∧
       (IdentifyGame envKnown worldNoConsole none 0).2.m_nPendingGameId
         = worldNoConsole.m_nPendingGameId ∧
       (IdentifyGame envKnown worldNoConsole none 0).2.m_nPendingMode
         = worldNoConsole.m_nPendingMode) := by
  refine ⟨rfl, ?_⟩
  intro h
  have hm := h.2.2.2.2
  simp [IdentifyGame, worldNoConsole, worldPlaying, World.ShowErrorMessage] at hm

/-- C1 (amended): when the console identifier is 0, for every image argument `IdentifyGame`
returns 0, shows exactly one error message (the only call it makes), leaves
`m_sPendingMD5` and `m_nPendingGameId` as they were and sets `m_nPendingMode` to
`Normal`; nothing else changes. -/
theorem C1_unknown_console (env : Env) (w : World) (pROM : Option (List Nat))
    (nROMSize : Nat) (hConsole : w.consoleId = 0) :
    (IdentifyGame env w pROM nROMSize).1 = 0 ∧
    (IdentifyGame env w pROM nROMSize).2 =
      { w with m_nPendingMode := Mode.Normal,
               trace := w.trace ++
                 [Event.ShowErrorMessage "Cannot identify game for unknown console."] } ∧
    errorCount (IdentifyGame env w pROM nROMSize).2.trace = errorCount w.trace + 1 ∧
    (IdentifyGame env w pROM nROMSize).2.m_sPendingMD5 = w.m_sPendingMD5 ∧
    (IdentifyGame env w pROM nROMSize).2.m_nPendingGameId = w.m_nPendingGameId ∧
    (IdentifyGame env w pROM nROMSize).2.m_nPendingMode = Mode.Normal := by
  simp [IdentifyGame, hConsole, World.ShowErrorMessage, errorCount, List.filter_append,
    Event.isError]

/-- Witness for C1: the amended statement at `worldNoConsole` with a null image. -/
theorem C1_unknown_console_witness :
    worldNoConsole.consoleId = 0 ∧
    (IdentifyGame envKnown worldNoConsole none 0).1 = 0 ∧
    errorCount (IdentifyGame envKnown worldNoConsole none 0).2.trace = 1 ∧
    (IdentifyGame envKnown worldNoConsole none 0).2.m_sPendingMD5 = "aaaa" ∧
    (IdentifyGame envKnown worldNoConsole none 0).2.m_nPendingGameId = 7 ∧
    (IdentifyGame envKnown worldNoConsole none 0).2.m_nPendingMode = Mode.Normal := by
  have h := C1_unknown_console envKnown worldNoConsole none 0 rfl
  exact ⟨rfl, h.1, h.2.2.1, h.2.2.2.1, h.2.2.2.2.1, h.2.2.2.2.2⟩

/-- C2 (as stated, refuted): with a null image and console identifier 0 an error message is
shown and the staged hash and game id keep their old values. -/
theorem C2_null_image_unknown_console :
    ¬ ((IdentifyGame envKnown worldNoConsole none 0).1 = 0 ∧
       (IdentifyGame envKnown worldNoConsole none 0).2.m_sPendingMD5 = "" ∧
       (IdentifyGame envKnown worldNoConsole none 0).2.m_nPendingGameId = 0 ∧
       errorCount (IdentifyGame envKnown worldNoConsole none 0).2.trace
         = errorCount worldNoConsole.trace) := by
  intro h
  have hid := h.2.2.1
  simp [IdentifyGame, worldNoConsole, worldPlaying, World.ShowErrorMessage] at hid

/-- C2 (amended): when the console identifier is non-zero and the image pointer is null or
the size is 0, `IdentifyGame` returns 0, afterwards `m_sPendingMD5` is empty and
`m_nPendingGameId` is 0, and no error message is shown (no service is called at all). -/
theorem C2_empty_image (env : Env) (w : World) (pROM : Option (List Nat)) (nROMSize : Nat)
    (hConsole : w.consoleId ≠ 0) (hEmpty : pROM = none ∨ nROMSize = 0) :
    (IdentifyGame env w pROM nROMSize).1 = 0 ∧
    (IdentifyGame env w pROM nROMSize).2.m_sPendingMD5 = "" ∧
    (IdentifyGame env w pROM nROMSize).2.m_nPendingGameId = 0 ∧
    (IdentifyGame env w pROM nROMSize).2.trace = w.trace ∧
    errorCount (IdentifyGame env w pROM nROMSize).2.trace = errorCount w.trace ∧
    (IdentifyGame env w pROM nROMSize).2 =
      { w with m_nPendingMode := Mode.Normal, m_sPendingMD5 := "", m_nPendingGameId := 0 } := by
  rcases hEmpty with h | h
  · subst h
    simp [IdentifyGame, hConsole]
  · subst h
    cases pROM <;> simp [IdentifyGame, hConsole]

/-- Witness for C2: the amended statement at `worldPlaying` (console 3) with a non-null
image of size 0. -/
theorem C2_empty_image_witness :
    worldPlaying.consoleId ≠ 0 ∧
    (IdentifyGame envKnown worldPlaying (some [1, 2, 3]) 0).1 = 0 ∧
    (IdentifyGame envKnown worldPlaying (some [1, 2, 3]) 0).2.m_sPendingMD5 = "" ∧
    (IdentifyGame envKnown worldPlaying (some [1, 2, 3]) 0).2.m_nPendingGameId = 0 ∧
    (IdentifyGame envKnown worldPlaying (some [1, 2, 3]) 0).2.trace = [] := by
  have h := C2_empty_image envKnown worldPlaying (some [1, 2, 3]) 0 (by decide) (Or.inr rfl)
  exact ⟨by decide, h.1, h.2.1, h.2.2.1, h.2.2.2.1⟩

/-- C3: when the user is not logged in, for every hash `IdentifyHash` returns 0 and its only
effect is one error message: the trace grows by exactly that event, so neither the
resolution service nor the unknown-game dialog is called, and the staging fields and the
Game State Holder are unchanged. -/
theorem C3_not_logged_in (env : Env) (w : World) (sMD5 : String)
    (hUser : w.loggedIn = false) :
    (IdentifyHash env w sMD5).1 = 0 ∧
    (IdentifyHash env w sMD5).2 =
      { w with trace := w.trace ++ [Event.ShowErrorMessage2 "Cannot load achievements"
        "You must be logged in to load achievements. Please reload the game after logging in."] } ∧
    errorCount (IdentifyHash env w sMD5).2.trace = errorCount w.trace + 1 ∧
    ((IdentifyHash env w sMD5).2.trace.drop w.trace.length).all
      (fun e => !e.isResolve && !e.isUnknownGameDialog) = true ∧
    (IdentifyHash env w sMD5).2.m_sPendingMD5 = w.m_sPendingMD5 ∧
    (IdentifyHash env w sMD5).2.m_nPendingGameId = w.m_nPendingGameId ∧
    (IdentifyHash env w sMD5).2.m_nPendingMode = w.m_nPendingMode ∧
    (IdentifyHash env w sMD5).2.game = w.game := by
  simp [IdentifyHash, hUser, World.ShowErrorMessage2, errorCount, List.filter_append,
    Event.isError, Event.isResolve, Event.isUnknownGameDialog]

/-- Witness for C3: at `worldLoggedOut` the staged triple and the active game stay as they
were and one error is shown. -/
theorem C3_not_logged_in_witness :
    worldLoggedOut.loggedIn = false ∧
    (IdentifyHash envKnown worldLoggedOut "bbbb").1 = 0 ∧
    errorCount (IdentifyHash envKnown worldLoggedOut "bbbb").2.trace = 1 ∧
    (IdentifyHash envKnown worldLoggedOut "bbbb").2.m_sPendingMD5 = "aaaa" ∧
    (IdentifyHash envKnown worldLoggedOut "bbbb").2.m_nPendingGameId = 7 ∧
    (IdentifyHash envKnown worldLoggedOut "bbbb").2.m_nPendingMode = Mode.CompatibilityTest ∧
    (IdentifyHash envKnown worldLoggedOut "bbbb").2.game = worldLoggedOut.game := by
  have h := C3_not_logged_in envKnown worldLoggedOut "bbbb" rfl
  exact ⟨rfl, h.1, h.2.2.1, h.2.2.2.2.1, h.2.2.2.2.2.1, h.2.2.2.2.2.2.1, h.2.2.2.2.2.2.2⟩

/-- The common shape of every logged-in run of `IdentifyHash`: an id `g`, a mode `m` and
the calls `t` made while resolving (none of which writes to the Game State Holder), followed
by the staging assignment and the disk-swap test. -/
theorem IdentifyHash_shape (env : Env) (w : World) (sMD5 : String)
    (hUser : w.loggedIn = true) :
    ∃ (g : Nat) (m : Mode) (t : List Event),
      t.all (fun e => !e.isHolderWrite) = true ∧
      IdentifyHash env w sMD5 =
        (g,
         if g ≠ 0 ∧ g = w.game.m_nGameId then
           { w with
                m_sPendingMD5 := sMD5, m_nPendingGameId := g, m_nPendingMode := m,
                game := { w.game with m_sGameHash := sMD5, m_nMode := m },
                trace := w.trace ++ (t ++ [Event.SetGameHash sMD5, Event.SetMode m]) }
         else
           { w with
                m_sPendingMD5 := sMD5, m_nPendingGameId := g, m_nPendingMode := m,
                trace := w.trace ++ t }) := by
  cases hOk : (env.ResolveHash sMD5).Succeeded
  · refine ⟨0, Mode.Normal, [Event.ResolveHash sMD5,
        Event.ShowErrorMessage2 "Could not identify game."
          (if (env.ResolveHash sMD5).ErrorMessage = "" then "Error from " ++ w.config.HostName
           else (env.ResolveHash sMD5).ErrorMessage)], ?_, ?_⟩
    · simp [Event.isHolderWrite]
    · rw [IdentifyHash_failure env w sMD5 hUser hOk]
      simp only [ne_eq, not_true_eq_false, false_and, if_false]
  · by_cases hId : (env.ResolveHash sMD5).GameId = 0
    · obtain ⟨g, hg⟩ : ∃ g : Nat, g =
          if (env.UnknownGame w.consoleName sMD5 w.emulatorGameTitle
                w.emulatorGameTitle).result = DialogResult.OK
          then (env.UnknownGame w.consoleName sMD5 w.emulatorGameTitle
                w.emulatorGameTitle).SelectedGameId
          else 0 := ⟨_, rfl⟩
      obtain ⟨m, hm⟩ : ∃ m : Mode, m =
          if (env.UnknownGame w.consoleName sMD5 w.emulatorGameTitle
                w.emulatorGameTitle).result = DialogResult.OK ∧
             (env.UnknownGame w.consoleName sMD5 w.emulatorGameTitle
                w.emulatorGameTitle).TestMode = true
          then Mode.CompatibilityTest else Mode.Normal := ⟨_, rfl⟩
      refine ⟨g, m, [Event.ResolveHash sMD5,
        Event.UnknownGameShowModal w.consoleName sMD5 w.emulatorGameTitle w.emulatorGameTitle],
        ?_, ?_⟩
      · simp [Event.isHolderWrite]
      · rw [IdentifyHash_unknown env w sMD5 hUser hOk hId _ rfl g hg m hm]
        simp
    · refine ⟨(env.ResolveHash sMD5).GameId, Mode.Normal, [Event.ResolveHash sMD5], ?_, ?_⟩
      · simp [Event.isHolderWrite]
      · rw [IdentifyHash_known env w sMD5 hUser hOk hId]
        simp [hId]

/-- C4: when the user is logged in, for every hash and every answer of the resolution
service and of the unknown-game dialog, `IdentifyHash` returns with `m_sPendingMD5` equal to
the hash and `m_nPendingGameId` equal to the returned id; when the service reports failure
the returned id is 0. -/
theorem C4_staging_holds_result (env : Env) (w : World) (sMD5 : String)
    (hUser : w.loggedIn = true) :
    (IdentifyHash env w sMD5).2.m_sPendingMD5 = sMD5 ∧
    (IdentifyHash env w sMD5).2.m_nPendingGameId = (IdentifyHash env w sMD5).1 ∧
    ((env.ResolveHash sMD5).Succeeded = false → (IdentifyHash env w sMD5).1 = 0) := by
  refine ⟨?_, ?_, ?_⟩
  · obtain ⟨g, m, t, -, h⟩ := IdentifyHash_shape env w sMD5 hUser
    rw [h]
    by_cases hSwap : g ≠ 0 ∧ g = w.game.m_nGameId
    · simp only [if_pos hSwap]
    · simp only [if_neg hSwap]
  · obtain ⟨g, m, t, -, h⟩ := IdentifyHash_shape env w sMD5 hUser
    rw [h]
    by_cases hSwap : g ≠ 0 ∧ g = w.game.m_nGameId
    · simp only [if_pos hSwap]
    · simp only [if_neg hSwap]
  · intro hFail
    rw [IdentifyHash_failure env w sMD5 hUser hFail]

/-- Witness for C4: a failing server at `worldPlaying` leaves the staging area at the new
hash with id 0. -/
theorem C4_staging_holds_result_witness :
    (IdentifyHash envFailing worldPlaying "bbbb").2.m_sPendingMD5 = "bbbb" ∧
    (IdentifyHash envFailing worldPlaying "bbbb").2.m_nPendingGameId
      = (IdentifyHash envFailing worldPlaying "bbbb").1 ∧
    (IdentifyHash envFailing worldPlaying "bbbb").1 = 0 := by
  have h := C4_staging_holds_result envFailing worldPlaying "bbbb" rfl
  exact ⟨h.1, h.2.1, h.2.2 rfl⟩

/-- C5 (disk-swap rule): for a logged-in call `IdentifyHash(h)` returning `g`: if `g` is
non-zero and equals the Game State Holder's current game id, then on return the holder's
hash is `h`, its mode is `m_nPendingMode` and its game id and title are as before; in every
other case the holder is exactly as it was, the call made no writing call on it, and the
only fields of the state that may differ are the three staging fields and the call trace. -/
theorem C5_disk_swap (env : Env) (w : World) (sMD5 : String) (hUser : w.loggedIn = true) :
    ((IdentifyHash env w sMD5).1 ≠ 0 ∧ (IdentifyHash env w sMD5).1 = w.game.m_nGameId →
      (IdentifyHash env w sMD5).2.game =
        { w.game with m_sGameHash := sMD5,
                      m_nMode := (IdentifyHash env w sMD5).2.m_nPendingMode } ∧
      (IdentifyHash env w sMD5).2.game.m_nGameId = w.game.m_nGameId) ∧
    (¬ ((IdentifyHash env w sMD5).1 ≠ 0 ∧ (IdentifyHash env w sMD5).1 = w.game.m_nGameId) →
      (IdentifyHash env w sMD5).2.game = w.game ∧
      ((IdentifyHash env w sMD5).2.trace.drop w.trace.length).all
        (fun e => !e.isHolderWrite) = true ∧
      (IdentifyHash env w sMD5).2 =
        { w with m_sPendingMD5 := sMD5,
                 m_nPendingGameId := (IdentifyHash env w sMD5).1,
                 m_nPendingMode := (IdentifyHash env w sMD5).2.m_nPendingMode,
                 trace := (IdentifyHash env w sMD5).2.trace }) := by
  obtain ⟨g, m, t, ht, h⟩ := IdentifyHash_shape env w sMD5 hUser
  rw [h]
  by_cases hSwap : g ≠ 0 ∧ g = w.game.m_nGameId
  · rw [if_pos hSwap]
    exact ⟨fun _ => ⟨rfl, rfl⟩, fun hn => absurd hSwap hn⟩
  · rw [if_neg hSwap]
    refine ⟨fun hs => absurd hs hSwap, fun _ => ⟨rfl, ?_, rfl⟩⟩
    show (List.drop w.trace.length (w.trace ++ t)).all (fun e => !e.isHolderWrite) = true
    rw [List.drop_left]
    exact ht

/-- Witness for C5: game 7 is active and the server resolves the new hash to 7, so the
holder takes the new hash and mode `Normal` during identification. -/
theorem C5_disk_swap_witness :
    (IdentifyHash envSeven worldPlaying "bbbb").1 = 7 ∧
    (IdentifyHash envSeven worldPlaying "bbbb").2.game =
      { worldPlaying.game with
          m_sGameHash := "bbbb",
          m_nMode := (IdentifyHash envSeven worldPlaying "bbbb").2.m_nPendingMode } ∧
    (IdentifyHash envKnown worldPlaying "bbbb").1 = 42 ∧
    (IdentifyHash envKnown worldPlaying "bbbb").2.game = worldPlaying.game := by
  have hSeven : (IdentifyHash envSeven worldPlaying "bbbb").1 = 7 := by
    simp [IdentifyHash, worldPlaying, envSeven, envKnown, World.ResolveHashCall]
  have hKnown : (IdentifyHash envKnown worldPlaying "bbbb").1 = 42 := by
    simp [IdentifyHash, worldPlaying, envKnown, World.ResolveHashCall]
  refine ⟨hSeven, ((C5_disk_swap envSeven worldPlaying "bbbb" rfl).1 ?_).1, hKnown,
    ((C5_disk_swap envKnown worldPlaying "bbbb" rfl).2 ?_).1⟩
  · rw [hSeven]; exact ⟨by decide, rfl⟩
  · rw [hKnown]; simp [worldPlaying]

/-- C6: for a logged-in call of `IdentifyHash` in which the resolution service succeeds with
game id 0: if the user confirms the unknown-game dialog (result `OK`) with test mode flagged,
the returned id is the dialog's selected game id and `m_nPendingMode` is `CompatibilityTest`
on return; if the user cancels (any result other than `OK`), the call returns 0,
`m_nPendingMode` is `Normal` and no error message is shown. -/
theorem C6_unknown_game_dialog (env : Env) (w : World) (sMD5 : String)
    (hUser : w.loggedIn = true) (hOk : (env.ResolveHash sMD5).Succeeded = true)
    (hId : (env.ResolveHash sMD5).GameId = 0) :
    ((env.UnknownGame w.consoleName sMD5 w.emulatorGameTitle w.emulatorGameTitle).result
        = DialogResult.OK ∧
     (env.UnknownGame w.consoleName sMD5 w.emulatorGameTitle w.emulatorGameTitle).TestMode
        = true →
      (IdentifyHash env w sMD5).1 =
        (env.UnknownGame w.consoleName sMD5 w.emulatorGameTitle
          w.emulatorGameTitle).SelectedGameId ∧
      (IdentifyHash env w sMD5).2.m_nPendingMode = Mode.CompatibilityTest) ∧
    ((env.UnknownGame w.consoleName sMD5 w.emulatorGameTitle w.emulatorGameTitle).result
        ≠ DialogResult.OK →
      (IdentifyHash env w sMD5).1 = 0 ∧
      (IdentifyHash env w sMD5).2.m_nPendingMode = Mode.Normal ∧
      errorCount (IdentifyHash env w sMD5).2.trace = errorCount w.trace) := by
  constructor
  · intro hConfirm
    rw [IdentifyHash_unknown env w sMD5 hUser hOk hId _ rfl
      (env.UnknownGame w.consoleName sMD5 w.emulatorGameTitle
        w.emulatorGameTitle).SelectedGameId (by rw [if_pos hConfirm.1])
      Mode.CompatibilityTest (by rw [if_pos hConfirm])]
    refine ⟨rfl, ?_⟩
    split <;> rfl
  · intro hCancel
    rw [IdentifyHash_unknown env w sMD5 hUser hOk hId _ rfl 0 (by rw [if_neg hCancel])
      Mode.Normal (by rw [if_neg (fun h => hCancel h.1)])]
    simp [errorCount, List.filter_append, Event.isError]

/-- Witness for C6: at `worldPlaying` a user who picks game 9 with test mode gets 9 staged in
compatibility test mode; a user who cancels gets 0, mode `Normal` and no error. -/
theorem C6_unknown_game_dialog_witness :
    ((IdentifyHash envUnknownConfirmed worldPlaying "bbbb").1 = 9 ∧
     (IdentifyHash envUnknownConfirmed worldPlaying "bbbb").2.m_nPendingMode
       = Mode.CompatibilityTest) ∧
    ((IdentifyHash envUnknownCancelled worldPlaying "bbbb").1 = 0 ∧
     (IdentifyHash envUnknownCancelled worldPlaying "bbbb").2.m_nPendingMode = Mode.Normal ∧
     errorCount (IdentifyHash envUnknownCancelled worldPlaying "bbbb").2.trace = 0) :=
  ⟨(C6_unknown_game_dialog envUnknownConfirmed worldPlaying "bbbb" rfl rfl rfl).1 ⟨rfl, rfl⟩,
   (C6_unknown_game_dialog envUnknownCancelled worldPlaying "bbbb" rfl rfl rfl).2
     (by decide)⟩

/-- C7: for a logged-in call of `IdentifyHash` in which the resolution service reports
failure, the call returns 0 and makes exactly two calls: the service request and one error
message.  The message is the service's error message when that is non-empty and otherwise
`"Error from "` followed by the configured host name; the unknown-game dialog is not
shown. -/
theorem C7_service_failure (env : Env) (w : World) (sMD5 : String)
    (hUser : w.loggedIn = true) (hFail : (env.ResolveHash sMD5).Succeeded = false) :
    (IdentifyHash env w sMD5).1 = 0 ∧
    errorCount (IdentifyHash env w sMD5).2.trace = errorCount w.trace + 1 ∧
    ((env.ResolveHash sMD5).ErrorMessage ≠ "" →
      (IdentifyHash env w sMD5).2.trace = w.trace ++ [Event.ResolveHash sMD5,
        Event.ShowErrorMessage2 "Could not identify game."
          (env.ResolveHash sMD5).ErrorMessage]) ∧
    ((env.ResolveHash sMD5).ErrorMessage = "" →
      (IdentifyHash env w sMD5).2.trace = w.trace ++ [Event.ResolveHash sMD5,
        Event.ShowErrorMessage2 "Could not identify game."
          ("Error from " ++ w.config.HostName)] ∧
      ∃ pre post : String, (IdentifyHash env w sMD5).2.trace = w.trace ++
        [Event.ResolveHash sMD5,
         Event.ShowErrorMessage2 "Could not identify game."
           (pre ++ w.config.HostName ++ post)]) ∧
    ((IdentifyHash env w sMD5).2.trace.drop w.trace.length).all
      (fun e => !e.isUnknownGameDialog) = true := by
  rw [IdentifyHash_failure env w sMD5 hUser hFail]
  refine ⟨rfl, ?_, ?_, ?_, ?_⟩
  · simp [errorCount, List.filter_append, Event.isError]
  · intro hMsg
    simp [hMsg]
  · intro hMsg
    refine ⟨by simp [hMsg], "Error from ", "", ?_⟩
    simp [hMsg]
  · simp [Event.isUnknownGameDialog]

/-- Witness for C7: a server failing without a message at `worldPlaying`, whose host is
`retroachievements.org`. -/
theorem C7_service_failure_witness :
    (IdentifyHash envFailing worldPlaying "bbbb").1 = 0 ∧
    errorCount (IdentifyHash envFailing worldPlaying "bbbb").2.trace = 1 ∧
    (IdentifyHash envFailing worldPlaying "bbbb").2.trace =
      [Event.ResolveHash "bbbb",
       Event.ShowErrorMessage2 "Could not identify game."
         ("Error from " ++ "retroachievements.org")] := by
  have h := C7_service_failure envFailing worldPlaying "bbbb" rfl rfl
  exact ⟨h.1, h.2.1, (h.2.2.2.1 rfl).1⟩

/-! ## Activation -/

/-- `ActivateGame` on the load path when hardcore mode is already enabled. -/
theorem ActivateGame_load_hardcore (env : Env) (w : World) (nGameId : Nat)
    (hId : nGameId ≠ 0) (hUser : w.loggedIn = true) (hHard : w.config.Hardcore = true) :
    ActivateGame env w nGameId =
      { w with
          popups := [],
          game := { w.game with
            m_nGameId := nGameId, m_nMode := w.m_nPendingMode,
            m_sGameHash := if nGameId = w.m_nPendingGameId then w.m_sPendingMD5 else "" },
          session := some nGameId,
          memoryModified := false,
          trace := w.trace ++
            [Event.ClearPopups, Event.LoadGame nGameId w.m_nPendingMode,
             Event.SetGameHash (if nGameId = w.m_nPendingGameId then w.m_sPendingMD5 else ""),
             Event.BeginSession nGameId,
             Event.ResetMemoryModified] } := by
  simp [ActivateGame, hId, hUser, hHard, World.ClearPopups, World.LoadGame,
    World.SetGameHash, World.BeginSession, World.ResetMemoryModified, World.WarningShowModal,
    World.EnableHardcoreMode, World.PlayAudioFile, World.QueueMessage]

/-- `ActivateGame` on the load path when the hardcore confirmation is shown and answered
`Yes`. -/
theorem ActivateGame_load_prompt_yes (env : Env) (w : World) (nGameId : Nat)
    (hId : nGameId ≠ 0) (hUser : w.loggedIn = true) (hHard : w.config.Hardcore = false)
    (hWarn : w.config.NonHardcoreWarning = true) (hAssets : env.HasCoreAssets nGameId = true)
    (hYes : env.HardcoreWarning nGameId = DialogResult.Yes) :
    ActivateGame env w nGameId =
      { w with
          popups := [],
          game := { w.game with
            m_nGameId := nGameId, m_nMode := w.m_nPendingMode,
            m_sGameHash := if nGameId = w.m_nPendingGameId then w.m_sPendingMD5 else "" },
          session := some nGameId,
          config := { w.config with Hardcore := true },
          memoryModified := false,
          trace := w.trace ++
            [Event.ClearPopups, Event.LoadGame nGameId w.m_nPendingMode,
             Event.SetGameHash (if nGameId = w.m_nPendingGameId then w.m_sPendingMD5 else ""),
             Event.BeginSession nGameId,
             Event.WarningShowModal "Enable Hardcore mode?"
               "You are loading a game with achievements and do not currently have hardcore mode enabled.",
             Event.EnableHardcoreMode false,
             Event.ResetMemoryModified] } := by
  simp [ActivateGame, hId, hUser, hHard, hWarn, hAssets, hYes, World.ClearPopups, World.LoadGame,
    World.SetGameHash, World.BeginSession, World.ResetMemoryModified, World.WarningShowModal,
    World.EnableHardcoreMode, World.PlayAudioFile, World.QueueMessage]

/-- `ActivateGame` on the load path when the hardcore confirmation is shown and not answered
`Yes`. -/
theorem ActivateGame_load_prompt_no (env : Env) (w : World) (nGameId : Nat)
    (hId : nGameId ≠ 0) (hUser : w.loggedIn = true) (hHard : w.config.Hardcore = false)
    (hWarn : w.config.NonHardcoreWarning = true) (hAssets : env.HasCoreAssets nGameId = true)
    (hNo : env.HardcoreWarning nGameId ≠ DialogResult.Yes) :
    ActivateGame env w nGameId =
      { w with
          popups := [],
          game := { w.game with
            m_nGameId := nGameId, m_nMode := w.m_nPendingMode,
            m_sGameHash := if nGameId = w.m_nPendingGameId then w.m_sPendingMD5 else "" },
          session := some nGameId,
          memoryModified := false,
          trace := w.trace ++
            [Event.ClearPopups, Event.LoadGame nGameId w.m_nPendingMode,
             Event.SetGameHash (if nGameId = w.m_nPendingGameId then w.m_sPendingMD5 else ""),
             Event.BeginSession nGameId,
             Event.WarningShowModal "Enable Hardcore mode?"
               "You are loading a game with achievements and do not currently have hardcore mode enabled.",
             Event.ResetMemoryModified] } := by
  simp [ActivateGame, hId, hUser, hHard, hWarn, hAssets, hNo, World.ClearPopups, World.LoadGame,
    World.SetGameHash, World.BeginSession, World.ResetMemoryModified, World.WarningShowModal,
    World.EnableHardcoreMode, World.PlayAudioFile, World.QueueMessage]

/-- `ActivateGame` on the load path when hardcore mode is disabled and no confirmation is
shown. -/
theorem ActivateGame_load_softcore (env : Env) (w : World) (nGameId : Nat)
    (hId : nGameId ≠ 0) (hUser : w.loggedIn = true) (hHard : w.config.Hardcore = false)
    (hNoPrompt : ¬ (w.config.NonHardcoreWarning = true ∧ env.HasCoreAssets nGameId = true)) :
    ActivateGame env w nGameId =
      { w with
          popups := [],
          game := { w.game with
            m_nGameId := nGameId, m_nMode := w.m_nPendingMode,
            m_sGameHash := if nGameId = w.m_nPendingGameId then w.m_sPendingMD5 else "" },
          session := some nGameId,
          messages := w.messages ++ [("Playing in Softcore Mode",
            if w.config.Leaderboards = true then "Leaderboard entries will not be submitted."
            else "")],
          memoryModified := false,
          trace := w.trace ++
            [Event.ClearPopups, Event.LoadGame nGameId w.m_nPendingMode,
             Event.SetGameHash (if nGameId = w.m_nPendingGameId then w.m_sPendingMD5 else ""),
             Event.BeginSession nGameId,
             Event.PlayAudioFile "Overlay\\info.wav",
             Event.QueueMessage "Playing in Softcore Mode"
               (if w.config.Leaderboards = true then "Leaderboard entries will not be submitted."
                else ""),
             Event.ResetMemoryModified] } := by
  have hPrompt : (if w.config.NonHardcoreWarning = true then env.HasCoreAssets nGameId
      else false) = false := by
    by_cases hW : w.config.NonHardcoreWarning = true
    · rw [if_pos hW]
      cases hA : env.HasCoreAssets nGameId
      · rfl
      · exact absurd ⟨hW, hA⟩ hNoPrompt
    · rw [if_neg hW]
  simp [ActivateGame, hId, hUser, hHard, hPrompt, World.ClearPopups, World.LoadGame,
    World.SetGameHash, World.BeginSession, World.ResetMemoryModified, World.WarningShowModal,
    World.EnableHardcoreMode, World.PlayAudioFile, World.QueueMessage]

/-- The common shape of every logged-in run of `ActivateGame` with a non-zero id: popups
cleared, the game loaded with the staged mode, the hash set, the session begun, then the
calls `t` of the hardcore policy (none of which writes to the Game State Holder or shows an
error), then the memory-modified flag reset. -/
theorem ActivateGame_load (env : Env) (w : World) (nGameId : Nat) (hId : nGameId ≠ 0)
    (hUser : w.loggedIn = true) :
    ∃ (hc : Bool) (msgs : List (String × String)) (t : List Event),
      t.all (fun e => !e.isHolderWrite && !e.isError) = true ∧
      ActivateGame env w nGameId =
        { w with
            popups := [],
            game := { w.game with
              m_nGameId := nGameId, m_nMode := w.m_nPendingMode,
              m_sGameHash := if nGameId = w.m_nPendingGameId then w.m_sPendingMD5 else "" },
            session := some nGameId,
            config := { w.config with Hardcore := hc },
            messages := msgs,
            memoryModified := false,
            trace := w.trace ++
              ([Event.ClearPopups, Event.LoadGame nGameId w.m_nPendingMode,
                Event.SetGameHash
                  (if nGameId = w.m_nPendingGameId then w.m_sPendingMD5 else ""),
                Event.BeginSession nGameId] ++ t ++ [Event.ResetMemoryModified]) } := by
  cases hHard : w.config.Hardcore
  · by_cases hPrompt : w.config.NonHardcoreWarning = true ∧ env.HasCoreAssets nGameId = true
    · by_cases hYes : env.HardcoreWarning nGameId = DialogResult.Yes
      · refine ⟨true, w.messages,
          [Event.WarningShowModal "Enable Hardcore mode?"
            "You are loading a game with achievements and do not currently have hardcore mode enabled.",
           Event.EnableHardcoreMode false], ?_, ?_⟩
        · simp [Event.isHolderWrite, Event.isError]
        · rw [ActivateGame_load_prompt_yes env w nGameId hId hUser hHard hPrompt.1 hPrompt.2
            hYes]
          simp
      · refine ⟨false, w.messages,
          [Event.WarningShowModal "Enable Hardcore mode?"
            "You are loading a game with achievements and do not currently have hardcore mode enabled."],
          ?_, ?_⟩
        · simp [Event.isHolderWrite, Event.isError]
        · rw [ActivateGame_load_prompt_no env w nGameId hId hUser hHard hPrompt.1 hPrompt.2
            hYes]
          simp [← hHard]
    · refine ⟨false,
        w.messages ++ [("Playing in Softcore Mode",
          if w.config.Leaderboards = true then "Leaderboard entries will not be submitted."
          else "")],
        [Event.PlayAudioFile "Overlay\\info.wav",
         Event.QueueMessage "Playing in Softcore Mode"
           (if w.config.Leaderboards = true then "Leaderboard entries will not be submitted."
            else "")], ?_, ?_⟩
      · simp [Event.isHolderWrite, Event.isError]
      · rw [ActivateGame_load_softcore env w nGameId hId hUser hHard hPrompt]
        simp [← hHard]
  · refine ⟨true, w.messages, [], by simp, ?_⟩
    rw [ActivateGame_load_hardcore env w nGameId hId hUser hHard]
    simp [← hHard]

/-- C8: for every state, logged in or not, `ActivateGame(0)` makes exactly four calls: it ends
the session, loads game id 0 with `m_nPendingMode`, sets the holder's hash to `m_sPendingMD5`
if `m_nPendingGameId` is 0 and to the empty string otherwise, and resets the memory-modified
flag.  Afterwards there is no session, the holder has id 0, mode `m_nPendingMode` and that
hash; no error is shown and no session is begun. -/
theorem C8_activate_zero (env : Env) (w : World) :
    (ActivateGame env w 0).trace = w.trace ++
      [Event.EndSession, Event.LoadGame 0 w.m_nPendingMode,
       Event.SetGameHash (if w.m_nPendingGameId = 0 then w.m_sPendingMD5 else ""),
       Event.ResetMemoryModified] ∧
    (ActivateGame env w 0).session = none ∧
    (ActivateGame env w 0).game.m_nGameId = 0 ∧
    (ActivateGame env w 0).game.m_nMode = w.m_nPendingMode ∧
    (ActivateGame env w 0).game.m_sGameHash
      = (if w.m_nPendingGameId = 0 then w.m_sPendingMD5 else "") ∧
    errorCount (ActivateGame env w 0).trace = errorCount w.trace ∧
    ActivateGame env w 0 =
      { w with
          session := none,
          game := { w.game with
            m_nGameId := 0, m_nMode := w.m_nPendingMode,
            m_sGameHash := if w.m_nPendingGameId = 0 then w.m_sPendingMD5 else "" },
          memoryModified := false,
          trace := w.trace ++
            [Event.EndSession, Event.LoadGame 0 w.m_nPendingMode,
             Event.SetGameHash (if w.m_nPendingGameId = 0 then w.m_sPendingMD5 else ""),
             Event.ResetMemoryModified] } := by
  simp [ActivateGame, World.EndSession, World.LoadGame, World.SetGameHash,
    World.ResetMemoryModified, errorCount, List.filter_append, Event.isError]

/-- C9 (as stated, refuted): with nobody logged in, activating the non-zero id 5 while 7 is
staged neither sets an empty hash on the holder nor begins a session for 5: the holder keeps
hash `aaaa` and the session for 7 stays. -/
theorem C9_logged_out_activation_does_nothing :
    (5 : Nat) ≠ 0 ∧ 5 ≠ worldLoggedOut.m_nPendingGameId ∧
    ¬ ((ActivateGame envKnown worldLoggedOut 5).game.m_sGameHash = "" ∧
       (ActivateGame envKnown worldLoggedOut 5).session = some 5) := by
  refine ⟨by decide, by decide, ?_⟩
  intro h
  have hs := h.2
  simp [ActivateGame, worldLoggedOut, worldPlaying, World.ShowErrorMessage2] at hs

/-- C9 (amended): for every non-zero id `g` and every state in which the user is logged in,
`ActivateGame(g)` begins a session for `g` and sets the holder's hash to `m_sPendingMD5` when
`g` equals `m_nPendingGameId` and to the empty string when it does not. -/
theorem C9_activate_commits_matching_hash (env : Env) (w : World) (nGameId : Nat)
    (hId : nGameId ≠ 0) (hUser : w.loggedIn = true) :
    (nGameId ≠ w.m_nPendingGameId →
      (ActivateGame env w nGameId).game.m_sGameHash = "" ∧
      Event.SetGameHash "" ∈ (ActivateGame env w nGameId).trace.drop w.trace.length) ∧
    (nGameId = w.m_nPendingGameId →
      (ActivateGame env w nGameId).game.m_sGameHash = w.m_sPendingMD5) ∧
    (ActivateGame env w nGameId).session = some nGameId ∧
    Event.BeginSession nGameId ∈ (ActivateGame env w nGameId).trace.drop w.trace.length := by
  obtain ⟨hc, msgs, t, -, h⟩ := ActivateGame_load env w nGameId hId hUser
  rw [h]
  refine ⟨fun hOther => ?_, fun hSame => ?_, rfl, ?_⟩
  · simp [hOther]
  · simp [hSame]
  · simp

/-- Witness for C9: at `worldPlaying` (7 staged with hash `aaaa`) activating 5 sets an empty
hash and begins session 5, activating 7 commits `aaaa`. -/
theorem C9_activate_commits_matching_hash_witness :
    (ActivateGame envKnown worldPlaying 5).game.m_sGameHash = "" ∧
    (ActivateGame envKnown worldPlaying 5).session = some 5 ∧
    (ActivateGame envKnown worldPlaying 7).game.m_sGameHash = "aaaa" :=
  ⟨((C9_activate_commits_matching_hash envKnown worldPlaying 5 (by decide) rfl).1
      (by decide)).1,
   (C9_activate_commits_matching_hash envKnown worldPlaying 5 (by decide) rfl).2.2.1,
   (C9_activate_commits_matching_hash envKnown worldPlaying 7 (by decide) rfl).2.1 rfl⟩

/-- C10: for every non-zero id and every state in which the user is not logged in,
`ActivateGame` shows exactly one error and does nothing else: the state after the call is the
state before it with that one event appended to the trace, so the Game State Holder, the
session, the overlay popups and messages, the hardcore setting, the memory-modified flag and
the staging fields are unchanged. -/
theorem C10_activate_logged_out (env : Env) (w : World) (nGameId : Nat)
    (hId : nGameId ≠ 0) (hUser : w.loggedIn = false) :
    ActivateGame env w nGameId =
      { w with trace := w.trace ++ [Event.ShowErrorMessage2 "Cannot load achievements"
        "You must be logged in to load achievements. Please reload the game after logging in."] } ∧
    errorCount (ActivateGame env w nGameId).trace = errorCount w.trace + 1 ∧
    (ActivateGame env w nGameId).game = w.game ∧
    (ActivateGame env w nGameId).session = w.session ∧
    (ActivateGame env w nGameId).popups = w.popups ∧
    (ActivateGame env w nGameId).messages = w.messages ∧
    (ActivateGame env w nGameId).config = w.config ∧
    (ActivateGame env w nGameId).memoryModified = w.memoryModified ∧
    (ActivateGame env w nGameId).m_sPendingMD5 = w.m_sPendingMD5 ∧
    (ActivateGame env w nGameId).m_nPendingGameId = w.m_nPendingGameId ∧
    (ActivateGame env w nGameId).m_nPendingMode = w.m_nPendingMode := by
  simp [ActivateGame, hId, hUser, World.ShowErrorMessage2, errorCount, List.filter_append,
    Event.isError]

/-- Witness for C10: at `worldLoggedOut` activating 7 leaves game 7, its session, the popup
and the set memory-modified flag in place and shows one error. -/
theorem C10_activate_logged_out_witness :
    errorCount (ActivateGame envKnown worldLoggedOut 7).trace = 1 ∧
    (ActivateGame envKnown worldLoggedOut 7).game = worldLoggedOut.game ∧
    (ActivateGame envKnown worldLoggedOut 7).session = some 7 ∧
    (ActivateGame envKnown worldLoggedOut 7).popups = ["Achievement Unlocked"] ∧
    (ActivateGame envKnown worldLoggedOut 7).memoryModified = true := by
  have h := C10_activate_logged_out envKnown worldLoggedOut 7 (by decide) rfl
  exact ⟨h.2.1, h.2.2.1, h.2.2.2.1, h.2.2.2.2.1, h.2.2.2.2.2.2.2.1⟩

/-- `ActivateGame(0)`: the state after the unload path. -/
theorem ActivateGame_unload (env : Env) (w : World) :
    ActivateGame env w 0 =
      { w with
          session := none,
          game := { w.game with
            m_nGameId := 0, m_nMode := w.m_nPendingMode,
            m_sGameHash := if w.m_nPendingGameId = 0 then w.m_sPendingMD5 else "" },
          memoryModified := false,
          trace := w.trace ++
            [Event.EndSession, Event.LoadGame 0 w.m_nPendingMode,
             Event.SetGameHash (if w.m_nPendingGameId = 0 then w.m_sPendingMD5 else ""),
             Event.ResetMemoryModified] } := by
  simp [ActivateGame, World.EndSession, World.LoadGame, World.SetGameHash,
    World.ResetMemoryModified]

/-- `ActivateGame` with a non-zero id when nobody is logged in. -/
theorem ActivateGame_logged_out (env : Env) (w : World) (nGameId : Nat)
    (hId : nGameId ≠ 0) (hUser : w.loggedIn = false) :
    ActivateGame env w nGameId =
      { w with trace := w.trace ++ [Event.ShowErrorMessage2 "Cannot load achievements"
        "You must be logged in to load achievements. Please reload the game after logging in."] } := by
  simp [ActivateGame, hId, hUser, World.ShowErrorMessage2]

/-- C11 (as stated, refuted): with nobody logged in, `ActivateGame(7)` returns without
resetting the memory-modified flag: the flag is still set and the last call made is the error
message, not the reset. -/
theorem C11_logged_out_flag_not_reset :
    ¬ ((ActivateGame envKnown worldLoggedOut 7).memoryModified = false ∧
       (ActivateGame envKnown worldLoggedOut 7).trace.getLast?
         = some Event.ResetMemoryModified) := by
  intro h
  have hm := h.1
  simp [ActivateGame, worldLoggedOut, worldPlaying, World.ShowErrorMessage2] at hm

/-- C11 (amended): for every state and every id such that the id is 0 or the user is logged
in, `ActivateGame` finishes by resetting the memory-modified flag: the last call it makes is
`ResetMemoryModified` and the flag is clear on return, on the load branch and on the unload
branch.  A call with a non-zero id made while the user is not logged in aborts after the
error message: it never calls `ResetMemoryModified` and leaves the flag as it was. -/
theorem C11_flag_reset (env : Env) (w : World) (nGameId : Nat) :
    (nGameId = 0 ∨ w.loggedIn = true →
      (ActivateGame env w nGameId).memoryModified = false ∧
      (ActivateGame env w nGameId).trace.getLast? = some Event.ResetMemoryModified) ∧
    (nGameId ≠ 0 ∧ w.loggedIn = false →
      (ActivateGame env w nGameId).memoryModified = w.memoryModified ∧
      Event.ResetMemoryModified ∉ (ActivateGame env w nGameId).callsSince w ∧
      (ActivateGame env w nGameId).callsSince w =
        [Event.ShowErrorMessage2 "Cannot load achievements"
          "You must be logged in to load achievements. Please reload the game after logging in."]) := by
  refine ⟨fun hRuns => ?_, fun hAbort => ?_⟩
  · by_cases hId : nGameId = 0
    · subst hId
      rw [ActivateGame_unload]
      simp
    · have hUser : w.loggedIn = true := hRuns.resolve_left hId
      obtain ⟨hc, msgs, t, -, h⟩ := ActivateGame_load env w nGameId hId hUser
      rw [h]
      refine ⟨rfl, ?_⟩
      show (w.trace ++ ([Event.ClearPopups, Event.LoadGame nGameId w.m_nPendingMode,
        Event.SetGameHash (if nGameId = w.m_nPendingGameId then w.m_sPendingMD5 else ""),
        Event.BeginSession nGameId] ++ t ++ [Event.ResetMemoryModified])).getLast? = _
      rw [← List.append_assoc, List.getLast?_append]
      rfl
  · rw [ActivateGame_logged_out env w nGameId hAbort.1 hAbort.2]
    simp [World.callsSince]

/-- Witness for C11: at `worldPlaying` (flag set) both activating 7 and unloading clear the
flag, and unloading does so even when nobody is logged in; activating 7 at `worldLoggedOut`
leaves the flag set. -/
theorem C11_flag_reset_witness :
    (ActivateGame envKnown worldPlaying 7).memoryModified = false ∧
    (ActivateGame envKnown worldPlaying 0).memoryModified = false ∧
    (ActivateGame envKnown worldLoggedOut 0).memoryModified = false ∧
    (ActivateGame envKnown worldLoggedOut 0).trace.getLast?
      = some Event.ResetMemoryModified ∧
    (ActivateGame envKnown worldLoggedOut 7).memoryModified = true ∧
    Event.ResetMemoryModified ∉
      (ActivateGame envKnown worldLoggedOut 7).callsSince worldLoggedOut :=
  ⟨((C11_flag_reset envKnown worldPlaying 7).1 (Or.inr rfl)).1,
   ((C11_flag_reset envKnown worldPlaying 0).1 (Or.inl rfl)).1,
   ((C11_flag_reset envKnown worldLoggedOut 0).1 (Or.inl rfl)).1,
   ((C11_flag_reset envKnown worldLoggedOut 0).1 (Or.inl rfl)).2,
   ((C11_flag_reset envKnown worldLoggedOut 7).2 ⟨by decide, rfl⟩).1,
   ((C11_flag_reset envKnown worldLoggedOut 7).2 ⟨by decide, rfl⟩).2.1⟩

/-- C12 (softcore notification policy): for a logged-in `ActivateGame(g)` with `g` non-zero:
(i) if hardcore is enabled, no confirmation dialog, audio cue or overlay message occurs;
(ii) if hardcore is disabled, the NonHardcoreWarning feature is enabled and the loaded game
has core achievement assets, the confirmation dialog is shown exactly once and no audio cue
or overlay message occurs; (iii) in every other case with hardcore disabled, no dialog is
shown, the audio cue `Overlay\info.wav` is played once and one overlay message titled
`Playing in Softcore Mode` is queued, whose detail text is the leaderboard caveat if the
Leaderboards feature is enabled and empty otherwise. -/
theorem C12_softcore_policy (env : Env) (w : World) (nGameId : Nat)
    (hId : nGameId ≠ 0) (hUser : w.loggedIn = true) :
    (w.config.Hardcore = true →
      eventCount Event.isWarningDialog ((ActivateGame env w nGameId).callsSince w) = 0 ∧
      eventCount Event.isAudioCue ((ActivateGame env w nGameId).callsSince w) = 0 ∧
      eventCount Event.isOverlayMessage ((ActivateGame env w nGameId).callsSince w) = 0 ∧
      (ActivateGame env w nGameId).messages = w.messages) ∧
    (w.config.Hardcore = false ∧ w.config.NonHardcoreWarning = true ∧
        env.HasCoreAssets nGameId = true →
      eventCount Event.isWarningDialog ((ActivateGame env w nGameId).callsSince w) = 1 ∧
      Event.WarningShowModal "Enable Hardcore mode?"
        "You are loading a game with achievements and do not currently have hardcore mode enabled."
        ∈ (ActivateGame env w nGameId).callsSince w ∧
      eventCount Event.isAudioCue ((ActivateGame env w nGameId).callsSince w) = 0 ∧
      eventCount Event.isOverlayMessage ((ActivateGame env w nGameId).callsSince w) = 0 ∧
      (ActivateGame env w nGameId).messages = w.messages) ∧
    (w.config.Hardcore = false ∧
        ¬ (w.config.NonHardcoreWarning = true ∧ env.HasCoreAssets nGameId = true) →
      eventCount Event.isWarningDialog ((ActivateGame env w nGameId).callsSince w) = 0 ∧
      eventCount Event.isAudioCue ((ActivateGame env w nGameId).callsSince w) = 1 ∧
      Event.PlayAudioFile "Overlay\\info.wav" ∈ (ActivateGame env w nGameId).callsSince w ∧
      eventCount Event.isOverlayMessage ((ActivateGame env w nGameId).callsSince w) = 1 ∧
      Event.QueueMessage "Playing in Softcore Mode"
        (if w.config.Leaderboards = true then "Leaderboard entries will not be submitted."
         else "") ∈ (ActivateGame env w nGameId).callsSince w ∧
      (ActivateGame env w nGameId).messages = w.messages ++
        [("Playing in Softcore Mode",
          if w.config.Leaderboards = true then "Leaderboard entries will not be submitted."
          else "")]) := by
  refine ⟨fun hHard => ?_, fun hPrompt => ?_, fun hSoft => ?_⟩
  · rw [ActivateGame_load_hardcore env w nGameId hId hUser hHard]
    simp [World.callsSince, eventCount, Event.isWarningDialog, Event.isAudioCue,
      Event.isOverlayMessage]
  · by_cases hYes : env.HardcoreWarning nGameId = DialogResult.Yes
    · rw [ActivateGame_load_prompt_yes env w nGameId hId hUser hPrompt.1 hPrompt.2.1
        hPrompt.2.2 hYes]
      simp [World.callsSince, eventCount, Event.isWarningDialog, Event.isAudioCue,
        Event.isOverlayMessage]
    · rw [ActivateGame_load_prompt_no env w nGameId hId hUser hPrompt.1 hPrompt.2.1
        hPrompt.2.2 hYes]
      simp [World.callsSince, eventCount, Event.isWarningDialog, Event.isAudioCue,
        Event.isOverlayMessage]
  · rw [ActivateGame_load_softcore env w nGameId hId hUser hSoft.1 hSoft.2]
    simp [World.callsSince, eventCount, Event.isWarningDialog, Event.isAudioCue,
      Event.isOverlayMessage]

/-- Witness for C12: activating game 42 at `worldHardcore` (hardcore on), at `worldWarning`
with core assets (prompt shown) and at `worldPlaying` (hardcore off, warning feature off,
leaderboards on). -/
theorem C12_softcore_policy_witness :
    eventCount Event.isOverlayMessage ((ActivateGame envKnown worldHardcore 42).callsSince
      worldHardcore) = 0 ∧
    eventCount Event.isWarningDialog ((ActivateGame envHardcoreYes worldWarning 42).callsSince
      worldWarning) = 1 ∧
    (ActivateGame envKnown worldPlaying 42).messages =
      [("Playing in Softcore Mode", "Leaderboard entries will not be submitted.")] :=
  ⟨((C12_softcore_policy envKnown worldHardcore 42 (by decide) rfl).1 rfl).2.2.1,
   ((C12_softcore_policy envHardcoreYes worldWarning 42 (by decide) rfl).2.1
      ⟨rfl, rfl, rfl⟩).1,
   ((C12_softcore_policy envKnown worldPlaying 42 (by decide) rfl).2.2
      ⟨rfl, by decide⟩).2.2.2.2.2⟩

/-- C13: for every call of `ActivateGame`, hardcore mode is switched on by the call (it calls
`EnableHardcoreMode`, equivalently the setting was off before and is on after) if and only
if the id is non-zero, the user is logged in, hardcore was disabled, the NonHardcoreWarning
feature is enabled, the loaded game has core achievement assets and the user answers `Yes`
to the confirmation dialog; in every other case the configuration, hardcore setting
included, is the same after the call as before. -/
theorem C13_hardcore_switch (env : Env) (w : World) (nGameId : Nat) :
    (Event.EnableHardcoreMode false ∈ (ActivateGame env w nGameId).callsSince w ↔
      (nGameId ≠ 0 ∧ w.loggedIn = true ∧ w.config.Hardcore = false ∧
       w.config.NonHardcoreWarning = true ∧ env.HasCoreAssets nGameId = true ∧
       env.HardcoreWarning nGameId = DialogResult.Yes)) ∧
    ((w.config.Hardcore = false ∧ (ActivateGame env w nGameId).config.Hardcore = true) ↔
      (nGameId ≠ 0 ∧ w.loggedIn = true ∧ w.config.Hardcore = false ∧
       w.config.NonHardcoreWarning = true ∧ env.HasCoreAssets nGameId = true ∧
       env.HardcoreWarning nGameId = DialogResult.Yes)) ∧
    (¬ (nGameId ≠ 0 ∧ w.loggedIn = true ∧ w.config.Hardcore = false ∧
        w.config.NonHardcoreWarning = true ∧ env.HasCoreAssets nGameId = true ∧
        env.HardcoreWarning nGameId = DialogResult.Yes) →
      (ActivateGame env w nGameId).config = w.config ∧
      eventCount Event.isEnableHardcore ((ActivateGame env w nGameId).callsSince w) = 0) := by
  by_cases hId : nGameId = 0
  · subst hId
    rw [ActivateGame_unload]
    simp [World.callsSince, eventCount, Event.isEnableHardcore]
  cases hUser : w.loggedIn
  · rw [ActivateGame_logged_out env w nGameId hId hUser]
    simp [World.callsSince, eventCount, Event.isEnableHardcore]
  cases hHard : w.config.Hardcore
  · by_cases hPrompt : w.config.NonHardcoreWarning = true ∧ env.HasCoreAssets nGameId = true
    · by_cases hYes : env.HardcoreWarning nGameId = DialogResult.Yes
      · rw [ActivateGame_load_prompt_yes env w nGameId hId hUser hHard hPrompt.1 hPrompt.2
          hYes]
        simp [World.callsSince, eventCount, Event.isEnableHardcore, hId, hHard, hPrompt.1,
          hPrompt.2, hYes]
      · rw [ActivateGame_load_prompt_no env w nGameId hId hUser hHard hPrompt.1 hPrompt.2
          hYes]
        simp [World.callsSince, eventCount, Event.isEnableHardcore, hId, hHard, hYes]
    · rw [ActivateGame_load_softcore env w nGameId hId hUser hHard hPrompt]
      have hP : w.config.NonHardcoreWarning = true → env.HasCoreAssets nGameId = false := by
        intro hW
        cases hA : env.HasCoreAssets nGameId
        · rfl
        · exact absurd ⟨hW, hA⟩ hPrompt
      simp [World.callsSince, eventCount, Event.isEnableHardcore, hHard]
      intro _ hW hA
      rw [hP hW] at hA
      exact absurd hA (by decide)
  · rw [ActivateGame_load_hardcore env w nGameId hId hUser hHard]
    simp [World.callsSince, eventCount, Event.isEnableHardcore, hHard]

/-- Witness for C13: at `worldWarning` a user answering `Yes` for a game with core assets gets
hardcore switched on; for a game without core assets no confirmation is shown and the
configuration stays. -/
theorem C13_hardcore_switch_witness :
    (worldWarning.config.Hardcore = false ∧
      (ActivateGame envHardcoreYes worldWarning 42).config.Hardcore = true) ∧
    (ActivateGame envKnown worldWarning 42).config = worldWarning.config :=
  ⟨(C13_hardcore_switch envHardcoreYes worldWarning 42).2.1.2
      ⟨by decide, rfl, rfl, rfl, rfl, rfl⟩,
   ((C13_hardcore_switch envKnown worldWarning 42).2.2 (by decide)).1⟩

/-- `IdentifyHash` when nobody is logged in. -/
theorem IdentifyHash_logged_out (env : Env) (w : World) (sMD5 : String)
    (hUser : w.loggedIn = false) :
    IdentifyHash env w sMD5 =
      (0, { w with trace := w.trace ++ [Event.ShowErrorMessage2 "Cannot load achievements"
        "You must be logged in to load achievements. Please reload the game after logging in."] }) := by
  simp [IdentifyHash, hUser, World.ShowErrorMessage2]

/-- `IdentifyGame` when the console is unknown. -/
theorem IdentifyGame_unknown_console (env : Env) (w : World) (pROM : Option (List Nat))
    (nROMSize : Nat) (hConsole : w.consoleId = 0) :
    IdentifyGame env w pROM nROMSize =
      (0, { w with m_nPendingMode := Mode.Normal,
                   trace := w.trace ++
                     [Event.ShowErrorMessage "Cannot identify game for unknown console."] }) := by
  simp [IdentifyGame, hConsole, World.ShowErrorMessage]

/-- `IdentifyGame` on a known console when the image is null or has size 0. -/
theorem IdentifyGame_empty (env : Env) (w : World) (pROM : Option (List Nat))
    (nROMSize : Nat) (hConsole : w.consoleId ≠ 0) (hEmpty : ¬ (pROM.isSome ∧ nROMSize ≠ 0)) :
    IdentifyGame env w pROM nROMSize =
      (0, { w with m_nPendingMode := Mode.Normal, m_sPendingMD5 := "",
                   m_nPendingGameId := 0 }) := by
  cases pROM with
  | none => simp [IdentifyGame, hConsole]
  | some rom =>
    have hSize : nROMSize = 0 := by
      by_contra hne
      exact hEmpty ⟨rfl, hne⟩
    simp [IdentifyGame, hConsole, hSize]

/-- `IdentifyGame` on a known console with a non-empty image hands the hash of the image to
`IdentifyHash`, the staged mode having been reset. -/
theorem IdentifyGame_hash (env : Env) (w : World) (rom : List Nat) (nROMSize : Nat)
    (hConsole : w.consoleId ≠ 0) (hSize : nROMSize ≠ 0) :
    IdentifyGame env w (some rom) nROMSize =
      IdentifyHash env { w with m_nPendingMode := Mode.Normal }
        (env.rc_hash_generate_from_buffer w.consoleId rom nROMSize) := by
  simp [IdentifyGame, hConsole, hSize]

/-- Setting the title is one of the writes to the Game State Holder. -/
theorem Event.isTitleWrite_of_not_isHolderWrite (e : Event)
    (h : (!e.isHolderWrite) = true) : e.isTitleWrite = false := by
  cases e <;> simp_all [Event.isHolderWrite, Event.isTitleWrite]

/-- What `IdentifyHash` can change: only the three staging fields, the hash and mode of the
Game State Holder and the trace, and it never sets the holder's title. -/
theorem IdentifyHash_frame (env : Env) (w : World) (sMD5 : String) :
    ∃ (md5 : String) (id : Nat) (mode : Mode) (hash : String) (gmode : Mode)
      (t : List Event),
      (∀ e ∈ t, e.isTitleWrite = false) ∧
      (IdentifyHash env w sMD5).2 =
        { w with m_sPendingMD5 := md5, m_nPendingGameId := id, m_nPendingMode := mode,
                 game := { w.game with m_sGameHash := hash, m_nMode := gmode },
                 trace := w.trace ++ t } := by
  by_cases hUser : w.loggedIn = true
  rotate_left
  · rw [IdentifyHash_logged_out env w sMD5 (by simpa using hUser)]
    refine ⟨w.m_sPendingMD5, w.m_nPendingGameId, w.m_nPendingMode, w.game.m_sGameHash,
      w.game.m_nMode, [Event.ShowErrorMessage2 "Cannot load achievements"
        "You must be logged in to load achievements. Please reload the game after logging in."],
      ?_, rfl⟩
    simp [Event.isTitleWrite]
  · obtain ⟨g, m, t, ht, h⟩ := IdentifyHash_shape env w sMD5 hUser
    have ht2 : ∀ e ∈ t, e.isTitleWrite = false := fun e he =>
      Event.isTitleWrite_of_not_isHolderWrite e (List.all_eq_true.mp ht e he)
    rw [h]
    by_cases hSwap : g ≠ 0 ∧ g = w.game.m_nGameId
    · rw [if_pos hSwap]
      refine ⟨sMD5, g, m, sMD5, m, t ++ [Event.SetGameHash sMD5, Event.SetMode m], ?_, ?_⟩
      · intro e he
        rcases List.mem_append.mp he with he | he
        · exact ht2 e he
        · simp at he
          rcases he with rfl | rfl <;> rfl
      · rfl
    · rw [if_neg hSwap]
      exact ⟨sMD5, g, m, w.game.m_sGameHash, w.game.m_nMode, t, ht2, rfl⟩

/-- What `IdentifyGame` can change: the same fields as `IdentifyHash`. -/
theorem IdentifyGame_frame (env : Env) (w : World) (pROM : Option (List Nat))
    (nROMSize : Nat) :
    ∃ (md5 : String) (id : Nat) (mode : Mode) (hash : String) (gmode : Mode)
      (t : List Event),
      (∀ e ∈ t, e.isTitleWrite = false) ∧
      (IdentifyGame env w pROM nROMSize).2 =
        { w with m_sPendingMD5 := md5, m_nPendingGameId := id, m_nPendingMode := mode,
                 game := { w.game with m_sGameHash := hash, m_nMode := gmode },
                 trace := w.trace ++ t } := by
  by_cases hConsole : w.consoleId = 0
  · rw [IdentifyGame_unknown_console env w pROM nROMSize hConsole]
    refine ⟨w.m_sPendingMD5, w.m_nPendingGameId, Mode.Normal, w.game.m_sGameHash,
      w.game.m_nMode, [Event.ShowErrorMessage "Cannot identify game for unknown console."],
      ?_, rfl⟩
    simp [Event.isTitleWrite]
  by_cases hImage : pROM.isSome ∧ nROMSize ≠ 0
  · obtain ⟨rom, rfl⟩ := Option.isSome_iff_exists.mp hImage.1
    rw [IdentifyGame_hash env w rom nROMSize hConsole hImage.2]
    obtain ⟨md5, id, mode, hash, gmode, t, ht, h⟩ :=
      IdentifyHash_frame env { w with m_nPendingMode := Mode.Normal }
        (env.rc_hash_generate_from_buffer w.consoleId rom nROMSize)
    exact ⟨md5, id, mode, hash, gmode, t, ht, h⟩
  · rw [IdentifyGame_empty env w pROM nROMSize hConsole hImage]
    refine ⟨"", 0, Mode.Normal, w.game.m_sGameHash, w.game.m_nMode, [], ?_, ?_⟩
    · simp
    · simp

/-- What `ActivateGame` can change: it leaves the staging fields, the console, the login
state and the estimated title alone, and it never sets the holder's title. -/
theorem ActivateGame_frame (env : Env) (w : World) (nGameId : Nat) :
    ∃ (popups : List String) (id : Nat) (hash : String) (gmode : Mode)
      (session : Option Nat) (config : Configuration) (msgs : List (String × String))
      (flag : Bool) (t : List Event),
      (∀ e ∈ t, e.isTitleWrite = false) ∧
      ActivateGame env w nGameId =
        { w with popups := popups,
                 game := { w.game with m_nGameId := id, m_sGameHash := hash, m_nMode := gmode },
                 session := session, config := config, messages := msgs,
                 memoryModified := flag, trace := w.trace ++ t } := by
  by_cases hId : nGameId = 0
  · subst hId
    rw [ActivateGame_unload]
    refine ⟨w.popups, 0, (if w.m_nPendingGameId = 0 then w.m_sPendingMD5 else ""),
      w.m_nPendingMode, none, w.config, w.messages, false,
      [Event.EndSession, Event.LoadGame 0 w.m_nPendingMode,
       Event.SetGameHash (if w.m_nPendingGameId = 0 then w.m_sPendingMD5 else ""),
       Event.ResetMemoryModified], ?_, rfl⟩
    simp [Event.isTitleWrite]
  by_cases hUser : w.loggedIn = true
  rotate_left
  · rw [ActivateGame_logged_out env w nGameId hId (by simpa using hUser)]
    refine ⟨w.popups, w.game.m_nGameId, w.game.m_sGameHash, w.game.m_nMode, w.session,
      w.config, w.messages, w.memoryModified,
      [Event.ShowErrorMessage2 "Cannot load achievements"
        "You must be logged in to load achievements. Please reload the game after logging in."],
      ?_, rfl⟩
    simp [Event.isTitleWrite]
  · obtain ⟨hc, msgs, t, ht, h⟩ := ActivateGame_load env w nGameId hId hUser
    rw [h]
    refine ⟨[], nGameId, (if nGameId = w.m_nPendingGameId then w.m_sPendingMD5 else ""),
      w.m_nPendingMode, some nGameId, { w.config with Hardcore := hc }, msgs, false,
      [Event.ClearPopups, Event.LoadGame nGameId w.m_nPendingMode,
       Event.SetGameHash (if nGameId = w.m_nPendingGameId then w.m_sPendingMD5 else ""),
       Event.BeginSession nGameId] ++ t ++ [Event.ResetMemoryModified], ?_, rfl⟩
    intro e he
    simp only [List.mem_append, List.mem_cons, List.mem_singleton, List.not_mem_nil,
      or_false] at he
    rcases he with (((rfl | rfl | rfl | rfl) | he) | rfl)
    · rfl
    · rfl
    · rfl
    · rfl
    · have := List.all_eq_true.mp ht e he
      simp only [Bool.and_eq_true] at this
      exact Event.isTitleWrite_of_not_isHolderWrite e this.1
    · rfl

/-- A list of calls none of which sets the title has title-write count 0. -/
theorem eventCount_isTitleWrite_eq_zero (t : List Event)
    (h : ∀ e ∈ t, e.isTitleWrite = false) : eventCount Event.isTitleWrite t = 0 := by
  unfold eventCount
  rw [List.length_eq_zero, List.filter_eq_nil_iff]
  intro e he
  simp [h e he]

/-- The trace and the estimated title after identification followed by activation, before the
fallback title is considered. -/
theorem ActivateGame_IdentifyGame_frame (env : Env) (w : World) (pROM : Option (List Nat))
    (nROMSize : Nat) :
    ∃ t : List Event,
      (∀ e ∈ t, e.isTitleWrite = false) ∧
      (ActivateGame env (IdentifyGame env w pROM nROMSize).2
        (IdentifyGame env w pROM nROMSize).1).trace = w.trace ++ t ∧
      (ActivateGame env (IdentifyGame env w pROM nROMSize).2
        (IdentifyGame env w pROM nROMSize).1).emulatorGameTitle = w.emulatorGameTitle := by
  obtain ⟨md5, id, mode, hash, gmode, t1, ht1, h1⟩ := IdentifyGame_frame env w pROM nROMSize
  obtain ⟨popups, id2, hash2, gmode2, session, config, msgs, flag, t2, ht2, h2⟩ :=
    ActivateGame_frame env (IdentifyGame env w pROM nROMSize).2
      (IdentifyGame env w pROM nROMSize).1
  refine ⟨t1 ++ t2, ?_, ?_, ?_⟩
  · intro e he
    rcases List.mem_append.mp he with he | he
    · exact ht1 e he
    · exact ht2 e he
  · rw [h2]
    show (IdentifyGame env w pROM nROMSize).2.trace ++ t2 = w.trace ++ (t1 ++ t2)
    rw [h1, List.append_assoc]
  · rw [h2]
    show (IdentifyGame env w pROM nROMSize).2.emulatorGameTitle = w.emulatorGameTitle
    rw [h1]

/-- C14: for every call of `IdentifyAndActivateGame`, the holder's title is set by the call
(once, as the last call) if and only if identification returned 0 and the image is non-null
with non-zero size; the title set is the emulator's estimated title when that is non-empty
and `Unknown` otherwise; the push leaves the holder's game id, hash and mode and the session
as activation left them.  In every other case the call is identification followed by
activation and nothing more. -/
theorem C14_fallback_title (env : Env) (w : World) (pROM : Option (List Nat))
    (nROMSize : Nat) :
    (eventCount Event.isTitleWrite ((IdentifyAndActivateGame env w pROM nROMSize).callsSince w)
        = 1 ↔
      ((IdentifyGame env w pROM nROMSize).1 = 0 ∧ pROM.isSome ∧ nROMSize ≠ 0)) ∧
    (¬ ((IdentifyGame env w pROM nROMSize).1 = 0 ∧ pROM.isSome ∧ nROMSize ≠ 0) →
      eventCount Event.isTitleWrite
        ((IdentifyAndActivateGame env w pROM nROMSize).callsSince w) = 0 ∧
      IdentifyAndActivateGame env w pROM nROMSize =
        ActivateGame env (IdentifyGame env w pROM nROMSize).2
          (IdentifyGame env w pROM nROMSize).1) ∧
    ((IdentifyGame env w pROM nROMSize).1 = 0 ∧ pROM.isSome ∧ nROMSize ≠ 0 →
      (IdentifyAndActivateGame env w pROM nROMSize).trace =
        (ActivateGame env (IdentifyGame env w pROM nROMSize).2
          (IdentifyGame env w pROM nROMSize).1).trace ++
        [Event.SetGameTitle
          (if w.emulatorGameTitle = "" then "Unknown" else w.emulatorGameTitle)] ∧
      (IdentifyAndActivateGame env w pROM nROMSize).game.m_sGameTitle =
        (if w.emulatorGameTitle = "" then "Unknown" else w.emulatorGameTitle) ∧
      (IdentifyAndActivateGame env w pROM nROMSize).game.m_nGameId =
        (ActivateGame env (IdentifyGame env w pROM nROMSize).2
          (IdentifyGame env w pROM nROMSize).1).game.m_nGameId ∧
      (IdentifyAndActivateGame env w pROM nROMSize).game.m_sGameHash =
        (ActivateGame env (IdentifyGame env w pROM nROMSize).2
          (IdentifyGame env w pROM nROMSize).1).game.m_sGameHash ∧
      (IdentifyAndActivateGame env w pROM nROMSize).game.m_nMode =
        (ActivateGame env (IdentifyGame env w pROM nROMSize).2
          (IdentifyGame env w pROM nROMSize).1).game.m_nMode ∧
      (IdentifyAndActivateGame env w pROM nROMSize).session =
        (ActivateGame env (IdentifyGame env w pROM nROMSize).2
          (IdentifyGame env w pROM nROMSize).1).session) := by
  obtain ⟨t, ht, hTrace, hTitle⟩ := ActivateGame_IdentifyGame_frame env w pROM nROMSize
  have hZero := eventCount_isTitleWrite_eq_zero t ht
  by_cases hCond : (IdentifyGame env w pROM nROMSize).1 = 0 ∧ pROM.isSome ∧ nROMSize ≠ 0
  · have hRun : IdentifyAndActivateGame env w pROM nROMSize =
        (ActivateGame env (IdentifyGame env w pROM nROMSize).2
          (IdentifyGame env w pROM nROMSize).1).SetGameTitle
          (if w.emulatorGameTitle = "" then "Unknown" else w.emulatorGameTitle) := by
      simp only [IdentifyAndActivateGame, if_pos hCond, hTitle, String.isEmpty_iff]
    have hCount : eventCount Event.isTitleWrite
        ((IdentifyAndActivateGame env w pROM nROMSize).callsSince w) = 1 := by
      rw [hRun]
      have hEq : eventCount Event.isTitleWrite (t ++
          [Event.SetGameTitle
            (if w.emulatorGameTitle = "" then "Unknown" else w.emulatorGameTitle)]) = 1 := by
        unfold eventCount at hZero ⊢
        rw [List.filter_append, List.length_append, hZero]
        rfl
      simpa [World.callsSince, World.SetGameTitle, hTrace] using hEq
    refine ⟨⟨fun _ => hCond, fun _ => hCount⟩, fun hn => absurd hCond hn, fun _ => ?_⟩
    rw [hRun]
    exact ⟨rfl, rfl, rfl, rfl, rfl, rfl⟩
  · have hRun : IdentifyAndActivateGame env w pROM nROMSize =
        ActivateGame env (IdentifyGame env w pROM nROMSize).2
          (IdentifyGame env w pROM nROMSize).1 := by
      simp only [IdentifyAndActivateGame, if_neg hCond]
    have hCount : eventCount Event.isTitleWrite
        ((IdentifyAndActivateGame env w pROM nROMSize).callsSince w) = 0 := by
      rw [hRun]
      simpa [World.callsSince, hTrace] using hZero
    refine ⟨⟨fun h => ?_, fun h => absurd h hCond⟩, fun _ => ⟨hCount, hRun⟩,
      fun h => absurd h hCond⟩
    rw [hCount] at h
    exact absurd h (by decide)

/-- Witness for C14: at `worldPlaying` a cancelled unknown game pushes the estimated title
`Some Game` after unloading; a known game (42) pushes no title. -/
theorem C14_fallback_title_witness :
    (IdentifyAndActivateGame envUnknownCancelled worldPlaying (some [1, 2, 3]) 3).game.m_sGameTitle
      = "Some Game" ∧
    eventCount Event.isTitleWrite
      ((IdentifyAndActivateGame envKnown worldPlaying (some [1, 2, 3]) 3).callsSince
        worldPlaying) = 0 := by
  have hUnknown : (IdentifyGame envUnknownCancelled worldPlaying (some [1, 2, 3]) 3).1 = 0 := by
    rw [IdentifyGame_hash _ _ _ _ (by decide) (by decide)]
    rw [IdentifyHash_unknown envUnknownCancelled _ _ rfl rfl rfl _ rfl 0 rfl Mode.Normal rfl]
  have hKnown : (IdentifyGame envKnown worldPlaying (some [1, 2, 3]) 3).1 = 42 := by
    rw [IdentifyGame_hash _ _ _ _ (by decide) (by decide)]
    rw [IdentifyHash_known envKnown _ _ rfl rfl (by decide)]
    rfl
  refine ⟨?_, ?_⟩
  · have h := ((C14_fallback_title envUnknownCancelled worldPlaying (some [1, 2, 3]) 3).2.2
      ⟨hUnknown, rfl, by decide⟩).2.1
    rw [h]
    decide
  · exact ((C14_fallback_title envKnown worldPlaying (some [1, 2, 3]) 3).2.1
      (by rw [hKnown]; decide)).1

/-- C15 (identify, then activate): if the user is logged in, no game is active, and the
resolution service succeeds with the non-zero id `g` for hash `h`, then `IdentifyHash(h)`
returns `g` with the staging area at `(h, g, Normal)` and the holder untouched, and a
following `ActivateGame(g)` loads game `g` into the holder with mode `Normal`, sets the
holder's hash to `h` and begins a session for `g`. -/
theorem C15_identify_then_activate (env : Env) (w : World) (sMD5 : String) (g : Nat)
    (hg : g ≠ 0) (hUser : w.loggedIn = true) (hActive : w.game.m_nGameId = 0)
    (hOk : (env.ResolveHash sMD5).Succeeded = true)
    (hRes : (env.ResolveHash sMD5).GameId = g) :
    (IdentifyHash env w sMD5).1 = g ∧
    (IdentifyHash env w sMD5).2.m_sPendingMD5 = sMD5 ∧
    (IdentifyHash env w sMD5).2.m_nPendingGameId = g ∧
    (IdentifyHash env w sMD5).2.m_nPendingMode = Mode.Normal ∧
    (IdentifyHash env w sMD5).2.game = w.game ∧
    (ActivateGame env (IdentifyHash env w sMD5).2 g).game.m_nGameId = g ∧
    (ActivateGame env (IdentifyHash env w sMD5).2 g).game.m_nMode = Mode.Normal ∧
    (ActivateGame env (IdentifyHash env w sMD5).2 g).game.m_sGameHash = sMD5 ∧
    (ActivateGame env (IdentifyHash env w sMD5).2 g).session = some g ∧
    Event.LoadGame g Mode.Normal ∈
      (ActivateGame env (IdentifyHash env w sMD5).2 g).callsSince (IdentifyHash env w sMD5).2 ∧
    Event.SetGameHash sMD5 ∈
      (ActivateGame env (IdentifyHash env w sMD5).2 g).callsSince (IdentifyHash env w sMD5).2 ∧
    Event.BeginSession g ∈
      (ActivateGame env (IdentifyHash env w sMD5).2 g).callsSince
        (IdentifyHash env w sMD5).2 := by
  have hId : (env.ResolveHash sMD5).GameId ≠ 0 := by rw [hRes]; exact hg
  have hNoSwap : ¬ ((env.ResolveHash sMD5).GameId = w.game.m_nGameId) := by
    rw [hRes, hActive]; exact hg
  have hI := IdentifyHash_known env w sMD5 hUser hOk hId
  rw [if_neg hNoSwap, hRes] at hI
  rw [hI]
  obtain ⟨hc, msgs, t, -, hA⟩ := ActivateGame_load env
    { w with m_sPendingMD5 := sMD5, m_nPendingGameId := g, m_nPendingMode := Mode.Normal,
             trace := w.trace ++ [Event.ResolveHash sMD5] } g hg hUser
  refine ⟨rfl, rfl, rfl, rfl, rfl, ?_⟩
  show (ActivateGame env
    { w with m_sPendingMD5 := sMD5, m_nPendingGameId := g, m_nPendingMode := Mode.Normal,
             trace := w.trace ++ [Event.ResolveHash sMD5] } g).game.m_nGameId = g ∧ _
  rw [hA]
  simp [World.callsSince]

/-- Witness for C15: the scenario of the specification, a SNES console with nothing loaded and
a server resolving the hash to 42. -/
theorem C15_identify_then_activate_witness :
    (IdentifyHash envKnown worldIdle "bbbb").1 = 42 ∧
    (IdentifyHash envKnown worldIdle "bbbb").2.m_sPendingMD5 = "bbbb" ∧
    (IdentifyHash envKnown worldIdle "bbbb").2.m_nPendingGameId = 42 ∧
    (IdentifyHash envKnown worldIdle "bbbb").2.m_nPendingMode = Mode.Normal ∧
    (ActivateGame envKnown (IdentifyHash envKnown worldIdle "bbbb").2 42).game.m_nGameId = 42 ∧
    (ActivateGame envKnown (IdentifyHash envKnown worldIdle "bbbb").2 42).game.m_sGameHash
      = "bbbb" ∧
    (ActivateGame envKnown (IdentifyHash envKnown worldIdle "bbbb").2 42).session = some 42 := by
  have h := C15_identify_then_activate envKnown worldIdle "bbbb" 42 (by decide) rfl rfl rfl rfl
  exact ⟨h.1, h.2.1, h.2.2.1, h.2.2.2.1, h.2.2.2.2.2.1, h.2.2.2.2.2.2.2.1,
    h.2.2.2.2.2.2.2.2.1⟩

/-- C17: for every id and every state, `ActivateGame` leaves `m_sPendingMD5`,
`m_nPendingGameId` and `m_nPendingMode` equal to their values before the call. -/
theorem C17_activation_keeps_staging (env : Env) (w : World) (nGameId : Nat) :
    (ActivateGame env w nGameId).m_sPendingMD5 = w.m_sPendingMD5 ∧
    (ActivateGame env w nGameId).m_nPendingGameId = w.m_nPendingGameId ∧
    (ActivateGame env w nGameId).m_nPendingMode = w.m_nPendingMode := by
  obtain ⟨popups, id, hash, gmode, session, config, msgs, flag, t, -, h⟩ :=
    ActivateGame_frame env w nGameId
  rw [h]
  exact ⟨rfl, rfl, rfl⟩

/-- The staged mode after a logged-in `IdentifyHash` is `CompatibilityTest` exactly when the
unknown-game dialog was confirmed with test mode flagged during the call. -/
theorem IdentifyHash_pendingMode (env : Env) (w : World) (sMD5 : String)
    (hUser : w.loggedIn = true) :
    (IdentifyHash env w sMD5).2.m_nPendingMode =
      if dialogConfirmedWithTestMode env ((IdentifyHash env w sMD5).2.callsSince w) = true
      then Mode.CompatibilityTest else Mode.Normal := by
  cases hOk : (env.ResolveHash sMD5).Succeeded
  · rw [IdentifyHash_failure env w sMD5 hUser hOk]
    simp [World.callsSince, dialogConfirmedWithTestMode]
  · by_cases hId : (env.ResolveHash sMD5).GameId = 0
    · obtain ⟨g, hg⟩ : ∃ g : Nat, g =
          if (env.UnknownGame w.consoleName sMD5 w.emulatorGameTitle
                w.emulatorGameTitle).result = DialogResult.OK
          then (env.UnknownGame w.consoleName sMD5 w.emulatorGameTitle
                w.emulatorGameTitle).SelectedGameId
          else 0 := ⟨_, rfl⟩
      rw [IdentifyHash_unknown env w sMD5 hUser hOk hId _ rfl g hg _ rfl]
      by_cases hSwap : g ≠ 0 ∧ g = w.game.m_nGameId
      · rw [if_pos hSwap]
        simp [World.callsSince, dialogConfirmedWithTestMode]
      · rw [if_neg hSwap]
        simp [World.callsSince, dialogConfirmedWithTestMode]
    · rw [IdentifyHash_known env w sMD5 hUser hOk hId]
      by_cases hSwap : (env.ResolveHash sMD5).GameId = w.game.m_nGameId
      · rw [if_pos hSwap]
        simp [World.callsSince, dialogConfirmedWithTestMode]
      · rw [if_neg hSwap]
        simp [World.callsSince, dialogConfirmedWithTestMode]

/-- C16 (as stated, refuted): `IdentifyHash` called while nobody is logged in returns with
`m_nPendingMode` still `CompatibilityTest` although the unknown-game dialog was not shown
during the call. -/
theorem C16_logged_out_mode_not_reset :
    (IdentifyHash envKnown worldLoggedOut "bbbb").2.m_nPendingMode = Mode.CompatibilityTest ∧
    dialogConfirmedWithTestMode envKnown
      ((IdentifyHash envKnown worldLoggedOut "bbbb").2.callsSince worldLoggedOut) = false := by
  rw [IdentifyHash_logged_out envKnown worldLoggedOut "bbbb" rfl]
  exact ⟨rfl, by decide⟩

/-- C16 (amended): from any prior state, after every call of `IdentifyGame`, and after every
call of `IdentifyHash` made while the user is logged in, `m_nPendingMode` is
`CompatibilityTest` if during that same call the unknown-game dialog was confirmed with test
mode flagged, and `Normal` otherwise; a call of `IdentifyHash` made while the user is not
logged in leaves `m_nPendingMode` as it was. -/
theorem C16_pending_mode_reset (env : Env) (w : World) :
    (∀ (pROM : Option (List Nat)) (nROMSize : Nat),
      (IdentifyGame env w pROM nROMSize).2.m_nPendingMode =
        if dialogConfirmedWithTestMode env
            ((IdentifyGame env w pROM nROMSize).2.callsSince w) = true
        then Mode.CompatibilityTest else Mode.Normal) ∧
    (∀ sMD5 : String, w.loggedIn = true →
      (IdentifyHash env w sMD5).2.m_nPendingMode =
        if dialogConfirmedWithTestMode env ((IdentifyHash env w sMD5).2.callsSince w) = true
        then Mode.CompatibilityTest else Mode.Normal) ∧
    (∀ sMD5 : String, w.loggedIn = false →
      (IdentifyHash env w sMD5).2.m_nPendingMode = w.m_nPendingMode) := by
  refine ⟨fun pROM nROMSize => ?_, fun sMD5 hUser => IdentifyHash_pendingMode env w sMD5 hUser,
    fun sMD5 hUser => ?_⟩
  · by_cases hConsole : w.consoleId = 0
    · rw [IdentifyGame_unknown_console env w pROM nROMSize hConsole]
      simp [World.callsSince, dialogConfirmedWithTestMode]
    by_cases hImage : pROM.isSome ∧ nROMSize ≠ 0
    · obtain ⟨rom, rfl⟩ := Option.isSome_iff_exists.mp hImage.1
      rw [IdentifyGame_hash env w rom nROMSize hConsole hImage.2]
      by_cases hUser : w.loggedIn = true
      · exact IdentifyHash_pendingMode env { w with m_nPendingMode := Mode.Normal } _ hUser
      · rw [IdentifyHash_logged_out env { w with m_nPendingMode := Mode.Normal } _
          (by simpa using hUser)]
        simp [World.callsSince, dialogConfirmedWithTestMode]
    · rw [IdentifyGame_empty env w pROM nROMSize hConsole hImage]
      simp [World.callsSince, dialogConfirmedWithTestMode]
  · rw [IdentifyHash_logged_out env w sMD5 hUser]

/-- Witness for C16: from `worldPlaying`, where `CompatibilityTest` is staged, a resolved
identification stages `Normal` and a confirmed unknown-game dialog with test mode stages
`CompatibilityTest`; from `worldLoggedOut` the staged mode stays. -/
theorem C16_pending_mode_reset_witness :
    (IdentifyHash envKnown worldPlaying "bbbb").2.m_nPendingMode = Mode.Normal ∧
    (IdentifyHash envUnknownConfirmed worldPlaying "bbbb").2.m_nPendingMode
      = Mode.CompatibilityTest ∧
    (IdentifyHash envKnown worldLoggedOut "bbbb").2.m_nPendingMode = Mode.CompatibilityTest := by
  have hKnown := (C16_pending_mode_reset envKnown worldPlaying).2.1 "bbbb" rfl
  have hConfirmed := (C16_pending_mode_reset envUnknownConfirmed worldPlaying).2.1 "bbbb" rfl
  have hOut := (C16_pending_mode_reset envKnown worldLoggedOut).2.2 "bbbb" rfl
  refine ⟨?_, ?_, hOut⟩
  · rw [hKnown, IdentifyHash_known envKnown worldPlaying "bbbb" rfl rfl (by decide)]
    decide
  · rw [hConfirmed, IdentifyHash_unknown envUnknownConfirmed worldPlaying "bbbb" rfl rfl rfl
      _ rfl 9 rfl Mode.CompatibilityTest rfl]
    decide

/-- After a logged-in `IdentifyHash` the staging area holds the hash and the returned id, and
the user is still logged in. -/
theorem IdentifyHash_staged (env : Env) (w : World) (sMD5 : String)
    (hUser : w.loggedIn = true) :
    (IdentifyHash env w sMD5).2.m_sPendingMD5 = sMD5 ∧
    (IdentifyHash env w sMD5).2.m_nPendingGameId = (IdentifyHash env w sMD5).1 ∧
    (IdentifyHash env w sMD5).2.loggedIn = true := by
  obtain ⟨g, m, t, -, h⟩ := IdentifyHash_shape env w sMD5 hUser
  rw [h]
  by_cases hSwap : g ≠ 0 ∧ g = w.game.m_nGameId
  · rw [if_pos hSwap]
    exact ⟨rfl, rfl, hUser⟩
  · rw [if_neg hSwap]
    exact ⟨rfl, rfl, hUser⟩

/-- Activating the staged id commits the staged hash, provided the call gets past the login
guard. -/
theorem ActivateGame_staged_hash (env : Env) (w : World)
    (hRuns : w.m_nPendingGameId = 0 ∨ w.loggedIn = true) :
    (ActivateGame env w w.m_nPendingGameId).game.m_sGameHash = w.m_sPendingMD5 := by
  by_cases hId : w.m_nPendingGameId = 0
  · rw [hId, ActivateGame_unload]
    simp [hId]
  · obtain ⟨hc, msgs, t, -, h⟩ :=
      ActivateGame_load env w w.m_nPendingGameId hId (hRuns.resolve_left hId)
    rw [h]
    simp

/-- The fallback title does not touch the holder's hash. -/
theorem IdentifyAndActivateGame_hash (env : Env) (w : World) (pROM : Option (List Nat))
    (nROMSize : Nat) :
    (IdentifyAndActivateGame env w pROM nROMSize).game.m_sGameHash =
      (ActivateGame env (IdentifyGame env w pROM nROMSize).2
        (IdentifyGame env w pROM nROMSize).1).game.m_sGameHash := by
  by_cases hCond : (IdentifyGame env w pROM nROMSize).1 = 0 ∧ pROM.isSome ∧ nROMSize ≠ 0
  · simp only [IdentifyAndActivateGame, if_pos hCond]
    rfl
  · simp only [IdentifyAndActivateGame, if_neg hCond]

/-- Where `IdentifyAndActivateGame` keeps a stale hash out, part 1: on a known console with
a logged-in user the holder's hash after the call is the hash of the image. -/
theorem IdentifyAndActivateGame_hash_identified (env : Env) (w : World) (rom : List Nat)
    (nROMSize : Nat) (hConsole : w.consoleId ≠ 0) (hUser : w.loggedIn = true)
    (hSize : nROMSize ≠ 0) :
    (IdentifyAndActivateGame env w (some rom) nROMSize).game.m_sGameHash =
      env.rc_hash_generate_from_buffer w.consoleId rom nROMSize := by
  rw [IdentifyAndActivateGame_hash, IdentifyGame_hash env w rom nROMSize hConsole hSize]
  obtain ⟨hMD5, hGame, hIn⟩ := IdentifyHash_staged env { w with m_nPendingMode := Mode.Normal }
    (env.rc_hash_generate_from_buffer w.consoleId rom nROMSize) hUser
  rw [← hGame, ActivateGame_staged_hash env _ (Or.inr hIn), hMD5]

/-- Where `IdentifyAndActivateGame` keeps a stale hash out, part 2: when identification stops
at the console guard or the login guard and the staged id is non-zero, the test on line 185
makes the holder's hash empty. -/
theorem IdentifyAndActivateGame_hash_guarded (env : Env) (w : World) (rom : List Nat)
    (nROMSize : Nat) (hSize : nROMSize ≠ 0) (hGuard : w.consoleId = 0 ∨ w.loggedIn = false)
    (hStaged : w.m_nPendingGameId ≠ 0) :
    (IdentifyAndActivateGame env w (some rom) nROMSize).game.m_sGameHash = "" := by
  rw [IdentifyAndActivateGame_hash]
  by_cases hConsole : w.consoleId = 0
  · rw [IdentifyGame_unknown_console env w (some rom) nROMSize hConsole]
    show (ActivateGame env _ 0).game.m_sGameHash = ""
    rw [ActivateGame_unload]
    simp [hStaged]
  · have hUser : w.loggedIn = false := hGuard.resolve_left hConsole
    rw [IdentifyGame_hash env w rom nROMSize hConsole hSize,
      IdentifyHash_logged_out env { w with m_nPendingMode := Mode.Normal } _ hUser]
    show (ActivateGame env _ 0).game.m_sGameHash = ""
    rw [ActivateGame_unload]
    simp [hStaged]

/-- Where `IdentifyAndActivateGame` keeps a stale hash out: for a non-empty image, whenever
identification gets past both guards or the staged id is non-zero, the holder's hash after
the call is empty or the hash of the image.  The states left over are those of
`C18_stale_hash_committed`: a guard stops identification while id 0 is staged. -/
theorem IdentifyAndActivateGame_hash_fresh (env : Env) (w : World) (rom : List Nat)
    (nROMSize : Nat) (hSize : nROMSize ≠ 0)
    (hState : (w.consoleId ≠ 0 ∧ w.loggedIn = true) ∨ w.m_nPendingGameId ≠ 0) :
    (IdentifyAndActivateGame env w (some rom) nROMSize).game.m_sGameHash = "" ∨
    (IdentifyAndActivateGame env w (some rom) nROMSize).game.m_sGameHash =
      env.rc_hash_generate_from_buffer w.consoleId rom nROMSize := by
  by_cases hPast : w.consoleId ≠ 0 ∧ w.loggedIn = true
  · exact Or.inr
      (IdentifyAndActivateGame_hash_identified env w rom nROMSize hPast.1 hPast.2 hSize)
  · have hStaged : w.m_nPendingGameId ≠ 0 := hState.resolve_left hPast
    have hGuard : w.consoleId = 0 ∨ w.loggedIn = false := by
      by_cases hConsole : w.consoleId = 0
      · exact Or.inl hConsole
      · refine Or.inr ?_
        cases hUser : w.loggedIn
        · rfl
        · exact absurd ⟨hConsole, hUser⟩ hPast
    exact Or.inl (IdentifyAndActivateGame_hash_guarded env w rom nROMSize hSize hGuard hStaged)

open data

/-- What a successful constructor call returns. -/
theorem construct_eq_some (r : Registry) (this : Nat) (sTypeName sPropertyName : String)
    (obj : ModelPropertyBase) (r1 : Registry)
    (h : construct r this sTypeName sPropertyName = some (obj, r1)) :
    obj = ⟨this, r.s_nNextKey, sTypeName, sPropertyName⟩ ∧
    r1 = ⟨wrapInt (r.s_nNextKey + 1), r.s_vProperties ++ [obj]⟩ := by
  simp only [construct] at h
  split_ifs at h with hExpects
  simp only [Option.some.injEq, Prod.mk.injEq] at h
  obtain ⟨h1, h2⟩ := h
  subst h1
  exact ⟨rfl, h2.symm⟩

/-- The constructor succeeds unless the registry is empty while the counter is not 1. -/
theorem construct_isSome_iff (r : Registry) (this : Nat) (sTypeName sPropertyName : String) :
    (construct r this sTypeName sPropertyName).isSome = true ↔
      (r.s_vProperties = [] → r.s_nNextKey = 1) := by
  unfold construct
  by_cases hEmpty : r.s_vProperties = []
  · by_cases hOne : r.s_nNextKey = 1
    · simp [hEmpty, hOne]
    · simp [hEmpty, hOne]
  · simp [hEmpty]

/-- A value in the 32-bit range is its own 32-bit value. -/
theorem wrapInt_of_range (x : Int) (hLow : -2147483648 ≤ x) (hHigh : x ≤ 2147483647) :
    wrapInt x = x := by
  unfold wrapInt
  omega

/-- Incrementing a stored counter gives the 32-bit value of the incremented count. -/
theorem wrapInt_succ (x : Int) : wrapInt (wrapInt x + 1) = wrapInt (x + 1) := by
  unfold wrapInt
  omega

/-- The destructor of an object whose address is not registered leaves the registry as it
is. -/
theorem destruct_of_not_registered (r : Registry) (this : Nat)
    (h : ∀ p ∈ r.s_vProperties, p.addr ≠ this) : destruct r this = r := by
  unfold destruct
  have : r.s_vProperties.eraseP (fun p => p.addr == this) = r.s_vProperties := by
    apply List.eraseP_of_forall_not
    intro p hp
    simpa using h p hp
  rw [this]

/-- Registrations and removals, as long as the count `c` of keys handed out so far plus the
new registrations stays within `int`: the keys stay strictly increasing and below the
count, the registrations receive consecutive keys, the counter holds the 32-bit value of
the count, and the registry holds a sublist of what was registered. -/
theorem run_invariant (ops : List Op) :
    ∀ (r rf : Registry) (objs : List ModelPropertyBase) (c : Int),
      r.s_nNextKey = wrapInt c → 1 ≤ c →
      r.keys.Pairwise (fun a b => a < b) → (∀ k ∈ r.keys, k < c) →
      run r ops = some (rf, objs) → c + (objs.length : Int) ≤ 2147483648 →
      rf.keys.Pairwise (fun a b => a < b) ∧ (∀ k ∈ rf.keys, k < c + (objs.length : Int)) ∧
      objs.map (fun p => p.m_nKey)
        = (List.range objs.length).map (fun (i : Nat) => c + (i : Int)) ∧
      rf.s_nNextKey = wrapInt (c + (objs.length : Int)) ∧
      rf.s_vProperties.Sublist (r.s_vProperties ++ objs) := by
  induction ops with
  | nil =>
    intro r rf objs c hCount hPos hSorted hBound hRun _
    simp only [run, Option.some.injEq, Prod.mk.injEq] at hRun
    obtain ⟨rfl, rfl⟩ := hRun
    exact ⟨hSorted, by simpa using hBound, by simp, by simpa using hCount, by simp⟩
  | cons op ops ih =>
    intro r rf objs c hCount hPos hSorted hBound hRun hRoom
    cases op with
    | construct this sTypeName sPropertyName =>
      simp only [run] at hRun
      cases hC : construct r this sTypeName sPropertyName with
      | none => rw [hC] at hRun; exact absurd hRun (by simp)
      | some res =>
        obtain ⟨obj, r1⟩ := res
        rw [hC] at hRun
        dsimp only at hRun
        cases hR : run r1 ops with
        | none => rw [hR] at hRun; exact absurd hRun (by simp)
        | some res2 =>
          obtain ⟨rf2, objs2⟩ := res2
          rw [hR] at hRun
          dsimp only at hRun
          simp only [Option.some.injEq, Prod.mk.injEq] at hRun
          obtain ⟨rfl, rfl⟩ := hRun
          rw [List.length_cons] at hRoom
          push_cast at hRoom
          obtain ⟨hObj, hR1⟩ := construct_eq_some r this sTypeName sPropertyName obj r1 hC
          have hStored : r.s_nNextKey = c := by
            rw [hCount]
            exact wrapInt_of_range c (by omega) (by omega)
          have hKey : obj.m_nKey = c := by rw [hObj]; exact hStored
          have hNext : r1.s_nNextKey = wrapInt (c + 1) := by rw [hR1, hStored]
          have hKeys1 : r1.keys = r.keys ++ [c] := by
            rw [hR1]; simp [Registry.keys, hKey]
          have hSorted1 : r1.keys.Pairwise (fun a b => a < b) := by
            rw [hKeys1, List.pairwise_append]
            refine ⟨hSorted, List.pairwise_singleton _ _, ?_⟩
            intro a ha b hb
            rw [List.mem_singleton] at hb
            rw [hb]
            exact hBound a ha
          have hBound1 : ∀ k ∈ r1.keys, k < c + 1 := by
            intro k hk
            rw [hKeys1, List.mem_append, List.mem_singleton] at hk
            rcases hk with hk | hk
            · have := hBound k hk
              omega
            · omega
          obtain ⟨h1, h2, h3, h4, h5⟩ := ih r1 rf2 objs2 (c + 1) hNext (by omega) hSorted1
            hBound1 hR (by omega)
          refine ⟨h1, ?_, ?_, ?_, ?_⟩
          · intro k hk
            have := h2 k hk
            rw [List.length_cons]
            push_cast
            omega
          · rw [List.length_cons, List.range_succ_eq_map, List.map_cons, List.map_cons,
              List.map_map, h3, hKey]
            simp only [Nat.cast_zero, add_zero, List.cons.injEq, true_and]
            apply List.map_congr_left
            intro i _
            simp only [Function.comp_apply, Nat.succ_eq_add_one, Nat.cast_add, Nat.cast_one]
            omega
          · rw [h4, List.length_cons]
            push_cast
            congr 1
            omega
          · have : r1.s_vProperties ++ objs2 = r.s_vProperties ++ obj :: objs2 := by
              rw [hR1]; simp
            rw [← this]
            exact h5
    | destruct this =>
      simp only [run] at hRun
      have hSub : (destruct r this).s_vProperties.Sublist r.s_vProperties :=
        List.eraseP_sublist _
      have hKeysSub : (destruct r this).keys.Sublist r.keys := hSub.map _
      have hSorted1 : (destruct r this).keys.Pairwise (fun a b => a < b) :=
        hSorted.sublist hKeysSub
      have hBound1 : ∀ k ∈ (destruct r this).keys, k < c :=
        fun k hk => hBound k (hKeysSub.subset hk)
      obtain ⟨h1, h2, h3, h4, h5⟩ := ih (destruct r this) rf objs c hCount hPos hSorted1
        hBound1 hRun hRoom
      exact ⟨h1, h2, h3, h4, h5.trans (List.Sublist.append hSub (List.Sublist.refl _))⟩

/-- A run of registrations always succeeds on a registry that is non-empty or fresh, and
hands out the 32-bit values of consecutive counts, wrapped or not. -/
theorem run_registrations (n : Nat) :
    ∀ (r : Registry) (a0 : Nat) (c : Int),
      r.s_nNextKey = wrapInt c → (r.s_vProperties ≠ [] ∨ wrapInt c = 1) →
      run r ((List.range n).map (fun i => Op.construct (a0 + i) "ViewModel" "P")) =
        some (⟨wrapInt (c + (n : Int)),
               r.s_vProperties ++ (List.range n).map
                 (fun i => ⟨a0 + i, wrapInt (c + (i : Int)), "ViewModel", "P"⟩)⟩,
              (List.range n).map
                 (fun i => ⟨a0 + i, wrapInt (c + (i : Int)), "ViewModel", "P"⟩)) := by
  induction n with
  | zero =>
    intro r a0 c hCount _
    cases r
    simp only at hCount
    simp [run, hCount]
  | succ n ih =>
    intro r a0 c hCount hExpects
    have hC : construct r (a0 + 0) "ViewModel" "P" =
        some (⟨a0 + 0, wrapInt c, "ViewModel", "P"⟩,
          ⟨wrapInt (c + 1), r.s_vProperties ++ [⟨a0 + 0, wrapInt c, "ViewModel", "P"⟩]⟩) := by
      have hGuard : ¬ (r.s_vProperties.isEmpty = true ∧ wrapInt c ≠ 1) := by
        rintro ⟨hE, hK⟩
        rcases hExpects with h | h
        · exact h (List.isEmpty_iff.mp hE)
        · exact hK h
      simp only [construct, hCount, wrapInt_succ]
      rw [if_neg hGuard]
    have hRest := ih ⟨wrapInt (c + 1),
        r.s_vProperties ++ [⟨a0 + 0, wrapInt c, "ViewModel", "P"⟩]⟩ (a0 + 1) (c + 1) rfl
      (Or.inl (by simp))
    have hOps : (List.range (n + 1)).map (fun i => Op.construct (a0 + i) "ViewModel" "P") =
        Op.construct (a0 + 0) "ViewModel" "P" ::
          (List.range n).map (fun i => Op.construct (a0 + 1 + i) "ViewModel" "P") := by
      rw [List.range_succ_eq_map, List.map_cons, List.map_map]
      congr 1
      apply List.map_congr_left
      intro i _
      simp only [Function.comp_apply, Nat.succ_eq_add_one]
      congr 1
      omega
    have hObjs : (List.range (n + 1)).map
          (fun i => (⟨a0 + i, wrapInt (c + (i : Int)), "ViewModel", "P"⟩ : ModelPropertyBase)) =
        ⟨a0 + 0, wrapInt c, "ViewModel", "P"⟩ ::
          (List.range n).map
            (fun i => ⟨a0 + 1 + i, wrapInt (c + 1 + (i : Int)), "ViewModel", "P"⟩) := by
      rw [List.range_succ_eq_map, List.map_cons, List.map_map]
      simp only [Nat.cast_zero, add_zero, List.cons.injEq, true_and]
      apply List.map_congr_left
      intro i _
      simp only [Function.comp_apply, Nat.succ_eq_add_one, Nat.cast_add, Nat.cast_one]
      congr 1
      · omega
      · congr 1
        omega
    rw [hOps, hObjs]
    simp only [run, hC, hRest]
    simp only [List.append_assoc, List.singleton_append, Option.some.injEq, Prod.mk.injEq,
      and_true]
    congr 2
    push_cast
    omega

/-- In a registry with strictly increasing keys, a later position holds a larger key. -/
theorem key_lt_of_index_lt (v : List ModelPropertyBase)
    (hSorted : (v.map (fun p => p.m_nKey)).Pairwise (fun a b => a < b))
    (i j : Nat) (p q : ModelPropertyBase) (hij : i < j)
    (hp : v[i]? = some p) (hq : v[j]? = some q) : p.m_nKey < q.m_nKey := by
  rw [List.pairwise_map, List.pairwise_iff_getElem] at hSorted
  obtain ⟨hi, rfl⟩ := List.getElem?_eq_some_iff.mp hp
  obtain ⟨hj, rfl⟩ := List.getElem?_eq_some_iff.mp hq
  exact hSorted i j hi hj hij

/-- The binary search of `std::lower_bound` over strictly increasing keys ends at the
partition point: every earlier position holds a key below `nKey`, every position from there
on a key that is not below it. -/
theorem lower_bound_loop_spec (v : List ModelPropertyBase)
    (hSorted : (v.map (fun p => p.m_nKey)).Pairwise (fun a b => a < b))
    (search : ModelPropertyBase) (fuel : Nat) :
    ∀ (first count : Nat), count ≤ fuel → first + count ≤ v.length →
      (∀ i p, i < first → v[i]? = some p → p.m_nKey < search.m_nKey) →
      (∀ i p, first + count ≤ i → v[i]? = some p → search.m_nKey ≤ p.m_nKey) →
      lower_bound.loop v (some search) GetPropertyForKey.comp fuel first count ≤ v.length ∧
      (∀ i p, i < lower_bound.loop v (some search) GetPropertyForKey.comp fuel first count →
        v[i]? = some p → p.m_nKey < search.m_nKey) ∧
      (∀ i p, lower_bound.loop v (some search) GetPropertyForKey.comp fuel first count ≤ i →
        v[i]? = some p → search.m_nKey ≤ p.m_nKey) := by
  induction fuel with
  | zero =>
    intro first count hFuel hLen hLow hHigh
    have hc : count = 0 := Nat.le_zero.mp hFuel
    subst hc
    exact ⟨by simpa [lower_bound.loop] using hLen, by simpa [lower_bound.loop] using hLow,
      by simpa [lower_bound.loop] using hHigh⟩
  | succ fuel ih =>
    intro first count hFuel hLen hLow hHigh
    by_cases hCount : 0 < count
    · have hIt : first + count / 2 < v.length := by
        have : count / 2 < count := Nat.div_lt_self hCount (by decide)
        omega
      obtain ⟨p, hp⟩ : ∃ p, v[first + count / 2]? = some p :=
        ⟨v[first + count / 2], List.getElem?_eq_getElem hIt⟩
      by_cases hLess : p.m_nKey < search.m_nKey
      · have hStep : lower_bound.loop v (some search) GetPropertyForKey.comp (fuel + 1) first
            count = lower_bound.loop v (some search) GetPropertyForKey.comp fuel
              (first + count / 2 + 1) (count - (count / 2 + 1)) := by
          simp [lower_bound.loop, hCount, hp, GetPropertyForKey.comp, hLess]
        rw [hStep]
        have hDiv : count / 2 < count := Nat.div_lt_self hCount (by decide)
        apply ih
        · omega
        · omega
        · intro i q hi hq
          by_cases hEq : i = first + count / 2
          · subst hEq
            rw [hp] at hq
            cases hq
            exact hLess
          · have := key_lt_of_index_lt v hSorted i (first + count / 2) q p (by omega) hq hp
            omega
        · intro i q hi hq
          exact hHigh i q (by omega) hq
      · have hStep : lower_bound.loop v (some search) GetPropertyForKey.comp (fuel + 1) first
            count = lower_bound.loop v (some search) GetPropertyForKey.comp fuel first
              (count / 2) := by
          simp [lower_bound.loop, hCount, hp, GetPropertyForKey.comp, hLess]
        rw [hStep]
        have hDiv : count / 2 < count := Nat.div_lt_self hCount (by decide)
        apply ih
        · omega
        · omega
        · exact hLow
        · intro i q hi hq
          by_cases hEq : i = first + count / 2
          · subst hEq
            rw [hp] at hq
            cases hq
            omega
          · have := key_lt_of_index_lt v hSorted (first + count / 2) i p q (by omega) hp hq
            omega
    · have hc : count = 0 := by omega
      subst hc
      have hStep : lower_bound.loop v (some search) GetPropertyForKey.comp (fuel + 1) first 0
          = first := by
        simp [lower_bound.loop]
      rw [hStep]
      exact ⟨by simpa using hLen, hLow, by simpa using hHigh⟩

/-- What `GetPropertyForKey` computes on a registry with strictly increasing keys: a
registered property with key `nKey` is found; the result is `nullptr` exactly when every
registered key is below `nKey`; and any property returned is the registered one with the
least key that is not below `nKey`, whether or not that key is `nKey`. -/
theorem GetPropertyForKey_spec (r : Registry)
    (hSorted : r.keys.Pairwise (fun a b => a < b)) (nKey : Int) :
    (∀ p ∈ r.s_vProperties, p.m_nKey = nKey → GetPropertyForKey r nKey = some p) ∧
    (GetPropertyForKey r nKey = none ↔ ∀ p ∈ r.s_vProperties, p.m_nKey < nKey) ∧
    (∀ p, GetPropertyForKey r nKey = some p →
      p ∈ r.s_vProperties ∧ nKey ≤ p.m_nKey ∧
      ∀ q ∈ r.s_vProperties, nKey ≤ q.m_nKey → p.m_nKey ≤ q.m_nKey) := by
  obtain ⟨hLen, hLow, hHigh⟩ := lower_bound_loop_spec r.s_vProperties hSorted
    ⟨0, nKey, "", ""⟩ r.s_vProperties.length 0 r.s_vProperties.length (Nat.le_refl _)
    (by omega) (fun i p hi _ => absurd hi (Nat.not_lt_zero i))
    (fun i p hi hp => by
      have := (List.getElem?_eq_some_iff.mp hp).1
      omega)
  have hGet : GetPropertyForKey r nKey =
      if lower_bound.loop r.s_vProperties (some ⟨0, nKey, "", ""⟩) GetPropertyForKey.comp
          r.s_vProperties.length 0 r.s_vProperties.length = r.s_vProperties.length
      then none
      else r.s_vProperties[lower_bound.loop r.s_vProperties (some ⟨0, nKey, "", ""⟩)
        GetPropertyForKey.comp r.s_vProperties.length 0 r.s_vProperties.length]? := rfl
  generalize lower_bound.loop r.s_vProperties (some ⟨0, nKey, "", ""⟩) GetPropertyForKey.comp
    r.s_vProperties.length 0 r.s_vProperties.length = res at hLen hLow hHigh hGet
  simp only at hLow hHigh
  by_cases hEnd : res = r.s_vProperties.length
  · rw [if_pos hEnd] at hGet
    have hAll : ∀ p ∈ r.s_vProperties, p.m_nKey < nKey := by
      intro p hp
      obtain ⟨i, hi⟩ := List.mem_iff_getElem?.mp hp
      have := (List.getElem?_eq_some_iff.mp hi).1
      exact hLow i p (by omega) hi
    refine ⟨?_, ?_, ?_⟩
    · intro p hp hKey
      have := hAll p hp
      omega
    · exact ⟨fun _ => hAll, fun _ => hGet⟩
    · intro p hp
      rw [hGet] at hp
      exact absurd hp (by simp)
  · rw [if_neg hEnd] at hGet
    have hRes : res < r.s_vProperties.length := by omega
    obtain ⟨found, hFound⟩ : ∃ p, r.s_vProperties[res]? = some p :=
      ⟨r.s_vProperties[res], List.getElem?_eq_getElem hRes⟩
    rw [hFound] at hGet
    have hFoundKey : nKey ≤ found.m_nKey := hHigh res found (Nat.le_refl _) hFound
    refine ⟨?_, ?_, ?_⟩
    · intro p hp hKey
      obtain ⟨i, hi⟩ := List.mem_iff_getElem?.mp hp
      rw [hGet]
      by_cases hLt : i < res
      · have := hLow i p hLt hi
        omega
      · by_cases hEq : i = res
        · subst hEq
          rw [hFound] at hi
          exact hi
        · have := key_lt_of_index_lt r.s_vProperties hSorted res i found p (by omega)
            hFound hi
          omega
    · constructor
      · intro hNone
        rw [hGet] at hNone
        exact absurd hNone (by simp)
      · intro hAll
        have := hAll found (List.mem_iff_getElem?.mpr ⟨res, hFound⟩)
        omega
    · intro p hp
      rw [hGet] at hp
      have hpf : found = p := Option.some.inj hp
      subst hpf
      refine ⟨List.mem_iff_getElem?.mpr ⟨res, hFound⟩, hFoundKey, ?_⟩
      intro q hq hqKey
      obtain ⟨j, hj⟩ := List.mem_iff_getElem?.mp hq
      by_cases hLt : j < res
      · have := hLow j q hLt hj
        omega
      · by_cases hEq : j = res
        · subst hEq
          rw [hFound] at hj
          cases hj
          exact Int.le_refl _
        · have := key_lt_of_index_lt r.s_vProperties hSorted res j found q (by omega)
            hFound hj
          omega

/-- C20 (the code at the failing input): in the registry reached by three registrations and
the removal of the second object no property has key 2, yet `GetPropertyForKey(2)` returns
the property with key 3; likewise `GetPropertyForKey(0)` returns the property with key 1.
Only a key above every registered key gives `nullptr`. -/
theorem C20_lookup_returns_other_key :
    run Registry.initial opsRemoveMiddle =
      some (registryGap,
        [⟨100, 1, "ViewModel", "A"⟩, ⟨101, 2, "ViewModel", "B"⟩,
         ⟨102, 3, "ViewModel", "C"⟩]) ∧
    (∀ p ∈ registryGap.s_vProperties, p.m_nKey ≠ 2) ∧
    GetPropertyForKey registryGap 2 = some ⟨102, 3, "ViewModel", "C"⟩ ∧
    GetPropertyForKey registryGap 0 = some ⟨100, 1, "ViewModel", "A"⟩ ∧
    GetPropertyForKey registryGap 4 = none := by
  refine ⟨by decide, by decide, by decide, by decide, by decide⟩

/-- A run that completes constructs one object per registration in the sequence. -/
theorem run_length (ops : List Op) :
    ∀ (r rf : Registry) (objs : List ModelPropertyBase),
      run r ops = some (rf, objs) → objs.length = registrations ops := by
  induction ops with
  | nil =>
    intro r rf objs hRun
    simp only [run, Option.some.injEq, Prod.mk.injEq] at hRun
    obtain ⟨-, rfl⟩ := hRun
    rfl
  | cons op ops ih =>
    intro r rf objs hRun
    cases op with
    | construct this sTypeName sPropertyName =>
      simp only [run] at hRun
      cases hC : construct r this sTypeName sPropertyName with
      | none => rw [hC] at hRun; exact absurd hRun (by simp)
      | some res =>
        obtain ⟨obj, r1⟩ := res
        rw [hC] at hRun
        dsimp only at hRun
        cases hR : run r1 ops with
        | none => rw [hR] at hRun; exact absurd hRun (by simp)
        | some res2 =>
          obtain ⟨rf2, objs2⟩ := res2
          rw [hR] at hRun
          dsimp only at hRun
          simp only [Option.some.injEq, Prod.mk.injEq] at hRun
          obtain ⟨-, rfl⟩ := hRun
          simp only [List.length_cons, registrations]
          rw [ih r1 rf2 objs2 hR]
    | destruct this =>
      simp only [run] at hRun
      simp only [registrations]
      exact ih (destruct r this) rf objs hRun

/-- The initial registry run through `n` registrations: the run completes for every `n`. -/
theorem run_opsRegister (n : Nat) :
    run Registry.initial (opsRegister n) =
      some (⟨wrapInt (1 + (n : Int)), registeredObjects n⟩, registeredObjects n) := by
  have h := run_registrations n Registry.initial 0 1 (by decide) (Or.inr (by decide))
  simpa [opsRegister, registeredObjects, Registry.initial] using h

/-- The object `opsRegister n` constructs at position `i`. -/
theorem registeredObjects_getElem? (n i : Nat) (h : i < n) :
    (registeredObjects n)[i]? = some ⟨i, wrapInt (1 + (i : Int)), "ViewModel", "P"⟩ := by
  simp [registeredObjects, List.getElem?_map, List.getElem?_range h]

/-- C19 (as stated, refuted): 2147483648 registrations in a row run to completion from the
initial registry, but the counter wraps after handing out `INT_MAX`: the last two
registered properties have keys 2147483647 and -2147483648, so the registry is not in
increasing key order and the last registration did not receive the next sequential key. -/
theorem C19_overflow_unsorted :
    run Registry.initial (opsRegister 2147483648) =
      some (⟨wrapInt (1 + ((2147483648 : Nat) : Int)), registeredObjects 2147483648⟩,
            registeredObjects 2147483648) ∧
    (registeredObjects 2147483648)[2147483646]?
      = some ⟨2147483646, INT_MAX, "ViewModel", "P"⟩ ∧
    (registeredObjects 2147483648)[2147483647]?
      = some ⟨2147483647, INT_MIN, "ViewModel", "P"⟩ ∧
    ¬ (Registry.keys ⟨wrapInt (1 + ((2147483648 : Nat) : Int)),
        registeredObjects 2147483648⟩).Pairwise (fun a b => a < b) := by
  have hA : (registeredObjects 2147483648)[2147483646]?
      = some ⟨2147483646, INT_MAX, "ViewModel", "P"⟩ := by
    rw [registeredObjects_getElem? 2147483648 2147483646 (by decide)]
    have : wrapInt (1 + ((2147483646 : Nat) : Int)) = INT_MAX := by decide
    rw [this]
  have hB : (registeredObjects 2147483648)[2147483647]?
      = some ⟨2147483647, INT_MIN, "ViewModel", "P"⟩ := by
    rw [registeredObjects_getElem? 2147483648 2147483647 (by decide)]
    have : wrapInt (1 + ((2147483647 : Nat) : Int)) = INT_MIN := by decide
    rw [this]
  refine ⟨run_opsRegister 2147483648, hA, hB, ?_⟩
  intro hSorted
  unfold Registry.keys at hSorted
  dsimp only at hSorted
  have h := key_lt_of_index_lt (registeredObjects 2147483648) hSorted 2147483646 2147483647
    ⟨2147483646, INT_MAX, "ViewModel", "P"⟩ ⟨2147483647, INT_MIN, "ViewModel", "P"⟩
    (by decide) hA hB
  exact absurd h (by decide)

/-- C19 (amended): after any sequence of registrations and removals that runs to completion
from the initial registry and contains fewer than 2147483648 registrations, `s_vProperties`
lists its properties in strictly increasing key order; the registrations received the keys
1, 2, 3, ... in order, the counter holds the 32-bit value of one more than their number,
and the registry holds a sublist of the registered objects, in registration order. -/
theorem C19_registry_sorted (ops : List Op) (r : Registry) (objs : List ModelPropertyBase)
    (hRun : run Registry.initial ops = some (r, objs))
    (hFew : registrations ops < 2147483648) :
    r.keys.Pairwise (fun a b => a < b) ∧
    objs.length = registrations ops ∧
    objs.map (fun p => p.m_nKey)
      = (List.range objs.length).map (fun (i : Nat) => (1 : Int) + (i : Int)) ∧
    r.s_nNextKey = wrapInt (1 + (objs.length : Int)) ∧
    r.s_vProperties.Sublist objs := by
  have hLen := run_length ops Registry.initial r objs hRun
  obtain ⟨h1, -, h3, h4, h5⟩ := run_invariant ops Registry.initial r objs 1 (by decide)
    (by decide) (by simp [Registry.initial, Registry.keys])
    (by simp [Registry.initial, Registry.keys]) hRun (by omega)
  exact ⟨h1, hLen, h3, h4, by simpa [Registry.initial] using h5⟩

/-- Witness for C19: three registrations and the removal of the second object run to
completion and leave keys 1 and 3 registered, in that order; the three registrations
received keys 1, 2 and 3. -/
theorem C19_registry_sorted_witness :
    run Registry.initial opsRemoveMiddle =
      some (registryGap,
        [⟨100, 1, "ViewModel", "A"⟩, ⟨101, 2, "ViewModel", "B"⟩,
         ⟨102, 3, "ViewModel", "C"⟩]) ∧
    registrations opsRemoveMiddle < 2147483648 ∧
    registryGap.keys.Pairwise (fun a b => a < b) ∧
    ([⟨100, 1, "ViewModel", "A"⟩, ⟨101, 2, "ViewModel", "B"⟩,
      ⟨102, 3, "ViewModel", "C"⟩] : List ModelPropertyBase).map (fun p => p.m_nKey)
      = (List.range 3).map (fun (i : Nat) => (1 : Int) + (i : Int)) ∧
    registryGap.s_nNextKey = wrapInt (1 + 3) :=
  ⟨by decide, by decide,
   (C19_registry_sorted opsRemoveMiddle registryGap
      [⟨100, 1, "ViewModel", "A"⟩, ⟨101, 2, "ViewModel", "B"⟩, ⟨102, 3, "ViewModel", "C"⟩]
      (by decide) (by decide)).1,
   (C19_registry_sorted opsRemoveMiddle registryGap
      [⟨100, 1, "ViewModel", "A"⟩, ⟨101, 2, "ViewModel", "B"⟩, ⟨102, 3, "ViewModel", "C"⟩]
      (by decide) (by decide)).2.2.1,
   (C19_registry_sorted opsRemoveMiddle registryGap
      [⟨100, 1, "ViewModel", "A"⟩, ⟨101, 2, "ViewModel", "B"⟩, ⟨102, 3, "ViewModel", "C"⟩]
      (by decide) (by decide)).2.2.2.1⟩

end ra
